import Mathlib

set_option maxHeartbeats 1000000

set_option maxRecDepth 10000

/-!
Shallow embedding of the itinerary-generation pipeline of the
`itinerary-backend` repository (agents/itinerary_generator_agent.py and
schemas/responses.py), together with theorems settling the frozen claims
about it.

Modelling conventions:
* Python strings are modelled as `List Char` (named `PyStr`).  All string
  data handled by the pipeline is ASCII, where Python's `str.lower`
  coincides with `Char.toLower`.
* Python `float` values are modelled as exact rationals (`Rat`).  The
  arithmetic performed by the embedded code on the concrete inputs used in
  the theorems below is exact in IEEE-754 double precision as well, so the
  modelled values coincide with the Python ones there.
* A raised Python exception is modelled as `Option.none` / `Except.error`.
-/

abbrev PyStr := List Char

/-- Chars of a Lean string literal; used to transcribe Python string literals. -/
def S (s : String) : PyStr := s.data

/-- Python `str.lower()` (ASCII fragment). -/
def pyLower (s : PyStr) : PyStr := s.map Char.toLower

/-- Python's substring test `needle in hay`. -/
def pyIn (needle hay : PyStr) : Bool := decide (needle <:+: hay)

/-- The whitespace characters stripped by Python's `str.strip()` (ASCII fragment). -/
def pyWs (c : Char) : Bool :=
  c == ' ' || c == '\t' || c == '\n' || c == '\r' || c == '\x0b' || c == '\x0c'

/-- Python `str.strip()` (ASCII fragment). -/
def pyStrip (s : PyStr) : PyStr :=
  ((s.dropWhile pyWs).reverse.dropWhile pyWs).reverse

/-- Numeric value of a digit string. -/
def digitsToNat (ds : List Char) : Nat :=
  ds.foldl (fun a c => 10 * a + (c.toNat - 48)) 0

/-- Model of Python's `float(s)` on strings: optional surrounding whitespace,
optional sign, decimal digits with optional fraction part, optional decimal
exponent.  (`inf`/`nan` literals and underscore digit separators are not
modelled; they never arise in this pipeline's data.)  `none` models a raised
`ValueError`. -/
def pyParseFloat? (s : PyStr) : Option Rat :=
  let t := pyStrip s
  let signAndRest : Rat × PyStr :=
    match t with
    | '+' :: r => (1, r)
    | '-' :: r => (-1, r)
    | r => (1, r)
  let sign := signAndRest.1
  let t0 := signAndRest.2
  let ip := t0.takeWhile Char.isDigit
  let t1 := t0.dropWhile Char.isDigit
  let fracAndRest : PyStr × PyStr :=
    match t1 with
    | '.' :: r => (r.takeWhile Char.isDigit, r.dropWhile Char.isDigit)
    | r => ([], r)
  let fp := fracAndRest.1
  let t2 := fracAndRest.2
  if ip.isEmpty && fp.isEmpty then none
  else
    let mant : Rat := sign * ((digitsToNat ip : Rat) + (digitsToNat fp : Rat) / ((10 : Rat) ^ fp.length))
    match t2 with
    | [] => some mant
    | 'e' :: r =>
      let esignAndRest : Bool × PyStr :=
        match r with
        | '+' :: q => (false, q)
        | '-' :: q => (true, q)
        | q => (false, q)
      let ed := esignAndRest.2.takeWhile Char.isDigit
      let rest := esignAndRest.2.dropWhile Char.isDigit
      if ed.isEmpty || !rest.isEmpty then none
      else if esignAndRest.1 then some (mant / ((10 : Rat) ^ digitsToNat ed))
      else some (mant * ((10 : Rat) ^ digitsToNat ed))
    | 'E' :: r =>
      let esignAndRest : Bool × PyStr :=
        match r with
        | '+' :: q => (false, q)
        | '-' :: q => (true, q)
        | q => (false, q)
      let ed := esignAndRest.2.takeWhile Char.isDigit
      let rest := esignAndRest.2.dropWhile Char.isDigit
      if ed.isEmpty || !rest.isEmpty then none
      else if esignAndRest.1 then some (mant / ((10 : Rat) ^ digitsToNat ed))
      else some (mant * ((10 : Rat) ^ digitsToNat ed))
    | _ => none

/-- `schemas.responses.WeatherInfo` (all fields are strings in the source). -/
structure WeatherInfo where
  date : PyStr
  temperature_celsius : PyStr
  condition : PyStr
  precipitation_chance : PyStr
  humidity : PyStr

deriving DecidableEq

/-- `schemas.responses.LocalEvent`. -/
structure LocalEvent where
  name : PyStr
  date : PyStr
  venue : PyStr
  category : PyStr
  description : PyStr := []
  price_range : PyStr := []

deriving DecidableEq

/-- Whether the event's description contains `"outdoor"` (case-insensitive),
as tested by `_calculate_event_relevance`. -/
def outdoorEvent (e : LocalEvent) : Bool :=
  pyIn (S ("outdoor")) (pyLower e.description)

/-- The interest-matching loop of `_calculate_event_relevance`: start at 1.0
and add 1.0 for each user activity that is a case-insensitive substring of the
event's category. -/
def baseScore (event : LocalEvent) (userActivities : List PyStr) : Rat :=
  userActivities.foldl
    (fun s activity => if pyIn (pyLower activity) (pyLower event.category) then s + 1 else s) 1

/-- The weather-penalty half of `_calculate_event_relevance`, applied to the
score accumulated by the interest loop. -/
def relevanceAux (event : LocalEvent) (score : Rat)
    (weatherForecast : List WeatherInfo) : Option Rat :=
  match weatherForecast.find? (fun w => w.date == event.date) with
  | none => some score
  | some w =>
    if outdoorEvent event then
      let score1 := if pyIn (S ("rain")) (pyLower w.condition) then score - 1/2 else score
      match pyParseFloat? w.precipitation_chance with
      | none => none
      | some p => some (if p > 50 then score1 - 1/2 else score1)
    else some score

/-- Embedding of `ItineraryGeneratorAgent._calculate_event_relevance`.
The Python for-loop with `break` over the forecast is `List.find?`; the
result is `none` exactly when `float(weather.precipitation_chance)` raises,
which the source does not catch. -/
def calculateEventRelevance (event : LocalEvent) (userActivities : List PyStr)
    (weatherForecast : List WeatherInfo) : Option Rat :=
  relevanceAux event (baseScore event userActivities) weatherForecast

/-- Number of user interests matching the event's category
(case-insensitive substring test), counted with multiplicity. -/
def matchCount (e : LocalEvent) (acts : List PyStr) : Nat :=
  acts.countP (fun a => pyIn (pyLower a) (pyLower e.category))

/-- Pointwise relation between two forecasts: same days except possibly the
`precipitation_chance` field. -/
def sameButPrecip (fc fc' : List WeatherInfo) : Prop :=
  List.Forall₂ (fun a b => a.date = b.date ∧ a.temperature_celsius = b.temperature_celsius ∧
    a.condition = b.condition ∧ a.humidity = b.humidity) fc fc'

/-- Values produced by Python's `json.loads`: JSON numbers without a fraction
or exponent become Python `int`s, the others `float`s. -/
inductive Json where
  | null
  | bool (b : Bool)
  | int (n : Int)
  | float (q : Rat)
  | str (s : PyStr)
  | arr (xs : List Json)
  | obj (fields : List (PyStr × Json))

/-- Dictionary lookup (`o[k]` / `k in o`); Python dict keys are unique, so
first match suffices. -/
def dGet : List (PyStr × Json) → PyStr → Option Json
  | [], _ => none
  | (k', v) :: rest, k => if k' = k then some v else dGet rest k

/-- Dictionary update `o[k] = v` (replace existing key, else append). -/
def dSet : List (PyStr × Json) → PyStr → Json → List (PyStr × Json)
  | [], k, v => [(k, v)]
  | (k', v') :: rest, k, v =>
    if k' = k then (k, v) :: rest else (k', v') :: dSet rest k v

/-- Decimal digits of a natural number. -/
def natRepr (n : Nat) : PyStr := Nat.toDigits 10 n

/-- Python `str`/`repr` of an int. -/
def intRepr (n : Int) : PyStr :=
  if n < 0 then '-' :: natRepr n.natAbs else natRepr n.natAbs

/-- Least `k` with `den ∣ 10^k` (for floats arising from JSON decimal text
such a `k` exists and is small); searched up to 40. -/
def decExp (den : Nat) : Option Nat :=
  (List.range 40).find? (fun k => 10 ^ k % den = 0)

/-- Python `repr` of a float, restricted to values with a finite decimal
expansion in the non-scientific-notation range — which covers every float
this pipeline manipulates.  Integral values render with a trailing `.0`,
others with their shortest decimal expansion. -/
def floatRepr (q : Rat) : PyStr :=
  let signS : PyStr := if q.num < 0 then ['-'] else []
  match decExp q.den with
  | some k =>
    if k = 0 then signS ++ natRepr q.num.natAbs ++ S (".0")
    else
      let scaled := q.num.natAbs * (10 ^ k / q.den)
      let ip := scaled / 10 ^ k
      let fr := scaled % 10 ^ k
      let frDigits := natRepr fr
      signS ++ natRepr ip ++ ['.'] ++ List.replicate (k - frDigits.length) '0' ++ frDigits
  | none => signS ++ natRepr q.num.natAbs ++ S ("e?")

/-- Python's `"{:.2f}".format`: fixed two decimals, ties to even. -/
def fmtFixed2 (q : Rat) : PyStr :=
  let neg := decide (q < 0)
  let a := if q < 0 then -q else q
  let x := a * 100
  let n0 : Nat := x.floor.toNat
  let fr := x - (n0 : Rat)
  let n := if fr > 1/2 then n0 + 1
    else if fr < 1/2 then n0
    else if n0 % 2 = 0 then n0 else n0 + 1
  let ip := n / 100
  let f2 := n % 100
  (if neg then ['-'] else []) ++ natRepr ip ++ ['.'] ++
    (if f2 < 10 then ['0'] else []) ++ natRepr f2

/-- Python `repr` of a JSON-decoded value (ASCII data; string escaping not
modelled — no claim exercises it). -/
def pyReprJson : Json → PyStr
  | .null => S ("None")
  | .bool b => if b then S ("True") else S ("False")
  | .int n => intRepr n
  | .float q => floatRepr q
  | .str s => Char.ofNat 39 :: s ++ [Char.ofNat 39]
  | .arr xs => '[' :: (List.intercalate (S (", "))
      (xs.attach.map (fun x => pyReprJson x.1))) ++ [']']
  | .obj o => S ("\x7b") ++
      (List.intercalate (S (", "))
        (o.attach.map (fun p =>
          (Char.ofNat 39 :: p.1.1 ++ [Char.ofNat 39]) ++ S (": ") ++ pyReprJson p.1.2))) ++
      S ("\x7d")
decreasing_by
  · have h1 : sizeOf x.1 < sizeOf xs := List.sizeOf_lt_of_mem x.2
    simp only [Json.arr.sizeOf_spec]
    omega
  · have h1 : sizeOf p.1 < sizeOf o := List.sizeOf_lt_of_mem p.2
    have h2 : sizeOf p.1.2 < sizeOf p.1 := by
      rcases p.1 with ⟨a, b⟩
      simp only [Prod.mk.sizeOf_spec]
      omega
    simp only [Json.obj.sizeOf_spec]
    omega

/-- Structural projection separating JSON values: the string payload of the
first key of an object whose first value is a string, else `[]`.  Used to
discriminate concrete `Json` values (the nested inductive has no derived
decidable equality). -/
def jsonFirstStr : Json → PyStr
  | .obj ((_, .str s) :: _) => s
  | _ => []

/-- Python's built-in `str()` on a JSON-decoded value: total, never raises. -/
def pyStrBuiltin : Json → PyStr
  | .str s => s
  | v => pyReprJson v

/-- Python's built-in `float()` on a JSON-decoded value; `error` models the
raised `ValueError`/`TypeError`. -/
def pyFloatBuiltin : Json → Except PyStr Rat
  | .float q => .ok q
  | .int n => .ok (n : Rat)
  | .bool b => .ok (if b then 1 else 0)
  | .str s =>
    match pyParseFloat? s with
    | some q => .ok q
    | none => .error (S ("could not convert string to float: ") ++ s)
  | _ => .error (S ("float() argument must be a string or a real number"))

/-- pydantic v1 coercion into a `str` field: strings pass through, numbers
and bools render, everything else is a validation error. -/
def pydStr : Json → Except PyStr PyStr
  | .str s => .ok s
  | .int n => .ok (intRepr n)
  | .float q => .ok (floatRepr q)
  | .bool b => .ok (if b then S ("True") else S ("False"))
  | _ => .error (S ("str type expected"))

/-- pydantic v1 coercion into a `float` field. -/
def pydFloat : Json → Except PyStr Rat
  | .float q => .ok q
  | .int n => .ok (n : Rat)
  | .bool b => .ok (if b then 1 else 0)
  | .str s =>
    match pyParseFloat? s with
    | some q => .ok q
    | none => .error (S ("value is not a valid float"))
  | _ => .error (S ("value is not a valid float"))

/-- Python truthiness of a JSON-decoded value. -/
def pyTruthy : Json → Bool
  | .null => false
  | .bool b => b
  | .int n => n != 0
  | .float q => q != 0
  | .str s => !s.isEmpty
  | .arr xs => !xs.isEmpty
  | .obj o => !o.isEmpty

/-- Iterating a JSON-decoded value with a Python `for` loop: lists yield
elements, strings yield one-character strings, dicts yield their keys, the
rest raise `TypeError`. -/
def jsonIter : Json → Except PyStr (List Json)
  | .arr xs => .ok xs
  | .str s => .ok (s.map (fun c => .str [c]))
  | .obj o => .ok (o.map (fun p => .str p.1))
  | _ => .error (S ("object is not iterable"))

/-- `schemas.responses.Activity`. -/
structure Activity where
  time : PyStr
  description : PyStr

deriving DecidableEq

/-- `schemas.responses.Meal`. -/
structure Meal where
  type : PyStr
  suggestion : PyStr

deriving DecidableEq

/-- `schemas.responses.Transport`. -/
structure Transport where
  time : PyStr
  description : PyStr

deriving DecidableEq

/-- `schemas.responses.Accommodation` with its literal field defaults. -/
structure Accommodation where
  name : PyStr := S ("Default Hotel")
  address : PyStr := S ("City Center")
  details : PyStr := S ("Standard Accommodation")

deriving DecidableEq

/-- `schemas.responses.WeatherSummary` (both fields required). -/
structure WeatherSummary where
  description : PyStr
  recommendations : PyStr

deriving DecidableEq

/-- `schemas.responses.EstimatedCosts` (each component defaults to 0.0). -/
structure EstimatedCosts where
  activities : Rat := 0
  meals : Rat := 0
  transport : Rat := 0
  accommodation : Rat := 0

deriving DecidableEq

/-- `schemas.responses.TripSummary` (all six fields required). -/
structure TripSummary where
  trip_dates : PyStr
  destination : PyStr
  budget : PyStr
  preferences : PyStr
  must_visit_places : PyStr
  trip_goal : PyStr

deriving DecidableEq

/-- A built `daily_route` entry: the plain dict
`\x7blatitude, longitude, stop_name\x7d` the parser constructs. -/
structure RouteStopDict where
  latitude : Rat
  longitude : Rat
  stop_name : PyStr

deriving DecidableEq

/-- `schemas.responses.DailyItinerary`. -/
structure DailyItinerary where
  date : PyStr
  activities : List Activity
  meals : List Meal
  transport : List Transport
  accommodation : Accommodation
  weather : WeatherInfo
  estimated_costs : EstimatedCosts
  weather_summary : WeatherSummary
  local_events : List LocalEvent
  daily_route : List RouteStopDict

deriving DecidableEq

/-- `schemas.responses.WeatherResponse`. -/
structure WeatherResponse where
  weather_forecast : List WeatherInfo
  local_events : List LocalEvent := []

deriving DecidableEq

/-- `schemas.responses.ItineraryResponse`. -/
structure ItineraryResponse where
  trip_summary : TripSummary
  daily_itineraries : List DailyItinerary
  total_cost : Rat
  recommendations : List PyStr
  weather_forecast : List WeatherInfo
  transport_options : List (List (PyStr × PyStr))
  emergency_contacts : List (PyStr × PyStr)
  useful_phrases : List (PyStr × PyStr)

deriving DecidableEq

/-- `Activity(**act)`: requires a mapping with coercible `time` and
`description`. -/
def activityOfJson : Json → Except PyStr Activity
  | .obj o => do
    let t ← match dGet o (S ("time")) with
      | some v => pydStr v
      | none => .error (S ("time: field required"))
    let d ← match dGet o (S ("description")) with
      | some v => pydStr v
      | none => .error (S ("description: field required"))
    .ok ⟨t, d⟩
  | _ => .error (S ("Activity() argument must be a mapping"))

/-- `Meal(**meal)`. -/
def mealOfJson : Json → Except PyStr Meal
  | .obj o => do
    let t ← match dGet o (S ("type")) with
      | some v => pydStr v
      | none => .error (S ("type: field required"))
    let d ← match dGet o (S ("suggestion")) with
      | some v => pydStr v
      | none => .error (S ("suggestion: field required"))
    .ok ⟨t, d⟩
  | _ => .error (S ("Meal() argument must be a mapping"))

/-- `Transport(**trans)`. -/
def transportOfJson : Json → Except PyStr Transport
  | .obj o => do
    let t ← match dGet o (S ("time")) with
      | some v => pydStr v
      | none => .error (S ("time: field required"))
    let d ← match dGet o (S ("description")) with
      | some v => pydStr v
      | none => .error (S ("description: field required"))
    .ok ⟨t, d⟩
  | _ => .error (S ("Transport() argument must be a mapping"))

/-- `LocalEvent(**event)`: four required fields, two defaulted to "". -/
def localEventOfJson : Json → Except PyStr LocalEvent
  | .obj o => do
    let n ← match dGet o (S ("name")) with
      | some v => pydStr v
      | none => .error (S ("name: field required"))
    let d ← match dGet o (S ("date")) with
      | some v => pydStr v
      | none => .error (S ("date: field required"))
    let ve ← match dGet o (S ("venue")) with
      | some v => pydStr v
      | none => .error (S ("venue: field required"))
    let c ← match dGet o (S ("category")) with
      | some v => pydStr v
      | none => .error (S ("category: field required"))
    let de ← match dGet o (S ("description")) with
      | some v => pydStr v
      | none => .ok []
    let pr ← match dGet o (S ("price_range")) with
      | some v => pydStr v
      | none => .ok []
    .ok ⟨n, d, ve, c, de, pr⟩
  | _ => .error (S ("LocalEvent() argument must be a mapping"))

/-- `WeatherSummary(**...)`: both fields required, no defaults. -/
def weatherSummaryOfJson : Json → Except PyStr WeatherSummary
  | .obj o => do
    let d ← match dGet o (S ("description")) with
      | some v => pydStr v
      | none => .error (S ("description: field required"))
    let r ← match dGet o (S ("recommendations")) with
      | some v => pydStr v
      | none => .error (S ("recommendations: field required"))
    .ok ⟨d, r⟩
  | _ => .error (S ("WeatherSummary() argument must be a mapping"))

/-- `EstimatedCosts(**...)`: four float fields, each defaulting to 0.0. -/
def estimatedCostsOfJson : Json → Except PyStr EstimatedCosts
  | .obj o => do
    let a ← match dGet o (S ("activities")) with
      | some v => pydFloat v
      | none => .ok 0
    let m ← match dGet o (S ("meals")) with
      | some v => pydFloat v
      | none => .ok 0
    let t ← match dGet o (S ("transport")) with
      | some v => pydFloat v
      | none => .ok 0
    let ac ← match dGet o (S ("accommodation")) with
      | some v => pydFloat v
      | none => .ok 0
    .ok ⟨a, m, t, ac⟩
  | _ => .error (S ("EstimatedCosts() argument must be a mapping"))

/-- `TripSummary(**data["trip_summary"])`: six required string fields. -/
def tripSummaryOfJson : Json → Except PyStr TripSummary
  | .obj o => do
    let td ← match dGet o (S ("trip_dates")) with
      | some v => pydStr v
      | none => .error (S ("trip_dates: field required"))
    let de ← match dGet o (S ("destination")) with
      | some v => pydStr v
      | none => .error (S ("destination: field required"))
    let b ← match dGet o (S ("budget")) with
      | some v => pydStr v
      | none => .error (S ("budget: field required"))
    let p ← match dGet o (S ("preferences")) with
      | some v => pydStr v
      | none => .error (S ("preferences: field required"))
    let mv ← match dGet o (S ("must_visit_places")) with
      | some v => pydStr v
      | none => .error (S ("must_visit_places: field required"))
    let g ← match dGet o (S ("trip_goal")) with
      | some v => pydStr v
      | none => .error (S ("trip_goal: field required"))
    .ok ⟨td, de, b, p, mv, g⟩
  | _ => .error (S ("TripSummary() argument must be a mapping"))

/-- pydantic `List[str]` validation for `recommendations`. -/
def recommendationsOfJson : Json → Except PyStr (List PyStr)
  | .arr xs => xs.mapM pydStr
  | _ => .error (S ("value is not a valid list"))

/-- Python equality `w.date == day_date` between a forecast date string and
the raw JSON day date: true only for an equal string. -/
def jsonEqStr (j : Json) (s : PyStr) : Bool :=
  match j with
  | .str t => t = s
  | _ => false

/-- Step (i) of `_parse_itinerary_response`'s per-day loop: find the
forecast day matching `day_data["date"]`, else construct the placeholder
`WeatherInfo` (whose `date` field goes through pydantic str coercion). -/
def buildWeatherInfo (weatherData : WeatherResponse) (dayDate : Json) :
    Except PyStr WeatherInfo :=
  match weatherData.weather_forecast.find? (fun w => jsonEqStr dayDate w.date) with
  | some w => .ok w
  | none => do
    let ds ← pydStr dayDate
    .ok ⟨ds, S ("0"), S ("Unknown"), S ("0"), S ("0")⟩

/-- `float(stop.get("latitude", 48.8566))` etc.: one route stop built from a
provided entry, defaulting missing fields, coercing coordinates with the
`float()` builtin (which raises on non-numeric strings) and the stop name
with the total `str()` builtin. -/
def buildRouteStop (stop : Json) : Except PyStr RouteStopDict :=
  match stop with
  | .obj o => do
    let la ← pyFloatBuiltin ((dGet o (S ("latitude"))).getD (.float (488566/10000)))
    let lo ← pyFloatBuiltin ((dGet o (S ("longitude"))).getD (.float (23522/10000)))
    .ok ⟨la, lo, pyStrBuiltin ((dGet o (S ("stop_name"))).getD (.str (S ("Unknown Stop"))))⟩
  | _ => .error (S ("route stop has no attribute get"))

/-- Step (ii): `day_data.get("daily_route", [])`; a falsy value yields the
single fallback stop, otherwise each iterated entry is built by
`buildRouteStop`. -/
def buildDailyRoute (day : List (PyStr × Json)) : Except PyStr (List RouteStopDict) :=
  let routeData := (dGet day (S ("daily_route"))).getD (.arr [])
  if !pyTruthy routeData then
    .ok [⟨488566/10000, 23522/10000, S ("Default Location")⟩]
  else do
    let stops ← jsonIter routeData
    stops.mapM buildRouteStop

/-- `[Activity(**act) for act in day_data["activities"]]`. -/
def buildActivities (day : List (PyStr × Json)) : Except PyStr (List Activity) := do
  let xs ← jsonIter ((dGet day (S ("activities"))).getD .null)
  xs.mapM activityOfJson

/-- `[Meal(**meal) for meal in day_data.get("meals", [])]`. -/
def buildMeals (day : List (PyStr × Json)) : Except PyStr (List Meal) := do
  let xs ← jsonIter ((dGet day (S ("meals"))).getD (.arr []))
  xs.mapM mealOfJson

/-- `[Transport(**trans) for trans in day_data.get("transport", [])]`. -/
def buildTransports (day : List (PyStr × Json)) : Except PyStr (List Transport) := do
  let xs ← jsonIter ((dGet day (S ("transport"))).getD (.arr []))
  xs.mapM transportOfJson

/-- Step (iv): the accommodation record.  A missing or non-dict value becomes
`\x7b\x7d`; each field is defaulted then passed through `str()`.  The model's
broken `validate_string_fields` validator (a class-level `__fields_set__`
access) raises on any empty-string field, and the surrounding `try/except`
then falls back to an all-default `Accommodation()`.  Total: never fails. -/
def buildAccommodation (day : List (PyStr × Json)) : Accommodation :=
  let accJson := (dGet day (S ("accommodation"))).getD (.obj [])
  let o := match accJson with
    | .obj o => o
    | _ => []
  let nm := pyStrBuiltin ((dGet o (S ("name"))).getD (.str (S ("Default Hotel"))))
  let ad := pyStrBuiltin ((dGet o (S ("address"))).getD (.str (S ("City Center"))))
  let dt := pyStrBuiltin ((dGet o (S ("details"))).getD (.str (S ("Standard Accommodation"))))
  if nm.isEmpty || ad.isEmpty || dt.isEmpty then {} else ⟨nm, ad, dt⟩

/-- Step (v): `EstimatedCosts(**day_data.get("estimated_costs", \x7b\x7d))`. -/
def buildCosts (day : List (PyStr × Json)) : Except PyStr EstimatedCosts :=
  estimatedCostsOfJson ((dGet day (S ("estimated_costs"))).getD (.obj []))

/-- Step (vi): `WeatherSummary(**day_data.get("weather_summary",
\x7b"description": "No data", "recommendations": "No data"\x7d))`.  The "No
data" defaults apply only when the key is absent. -/
def buildWeatherSummary (day : List (PyStr × Json)) : Except PyStr WeatherSummary :=
  weatherSummaryOfJson ((dGet day (S ("weather_summary"))).getD
    (.obj [(S ("description"), .str (S ("No data"))),
           (S ("recommendations"), .str (S ("No data")))]))

/-- Step (vii): `[LocalEvent(**event) for event in day_data.get("local_events", [])]`. -/
def buildLocalEvents (day : List (PyStr × Json)) : Except PyStr (List LocalEvent) := do
  let xs ← jsonIter ((dGet day (S ("local_events"))).getD (.arr []))
  xs.mapM localEventOfJson

/-- One iteration of the per-day loop of `_parse_itinerary_response`,
in source order; any error aborts the whole assembly. -/
def buildDay (weatherData : WeatherResponse) : Json → Except PyStr DailyItinerary
  | .obj day => do
    let dayDate := (dGet day (S ("date"))).getD .null
    let wi ← buildWeatherInfo weatherData dayDate
    let route ← buildDailyRoute day
    let acts ← buildActivities day
    let meals ← buildMeals day
    let trans ← buildTransports day
    let acc := buildAccommodation day
    let costs ← buildCosts day
    let ws ← buildWeatherSummary day
    let les ← buildLocalEvents day
    let d ← pydStr dayDate
    .ok { date := d, activities := acts, meals := meals, transport := trans,
          accommodation := acc, weather := wi, estimated_costs := costs,
          weather_summary := ws, local_events := les, daily_route := route }
  | _ => .error (S ("Each day in daily_itineraries must be a dictionary"))

/-- The required-field names checked by `_validate_itinerary_data`. -/
def requiredTopFields : List PyStr :=
  [S ("trip_summary"), S ("daily_itineraries"), S ("recommendations")]

/-- The required per-day field names checked by `_validate_itinerary_data`. -/
def requiredDayFields : List PyStr :=
  [S ("date"), S ("activities"), S ("meals"), S ("transport"), S ("accommodation")]

/-- The required top-level fields absent from `o`, in check order. -/
def topMissing (o : List (PyStr × Json)) : List PyStr :=
  requiredTopFields.filter (fun f => (dGet o f).isNone)

/-- The required per-day fields absent from a day object, in check order. -/
def dayMissing (o : List (PyStr × Json)) : List PyStr :=
  requiredDayFields.filter (fun f => (dGet o f).isNone)

/-- The per-day half of `_validate_itinerary_data`'s loop. -/
def validateDays : List Json → Except PyStr Unit
  | [] => .ok ()
  | d :: rest =>
    match d with
    | .obj o =>
      if !(dayMissing o).isEmpty then
        .error (S ("Missing required fields in day data: ") ++
          List.intercalate (S (", ")) (dayMissing o))
      else validateDays rest
    | _ => .error (S ("Each day in daily_itineraries must be a dictionary"))

/-- Embedding of `ItineraryGeneratorAgent._validate_itinerary_data`. -/
def validateItineraryData (data : Json) : Except PyStr Unit :=
  match data with
  | .obj o =>
    if !(topMissing o).isEmpty then
      .error (S ("Missing required fields in itinerary data: ") ++
        List.intercalate (S (", ")) (topMissing o))
    else
      match dGet o (S ("daily_itineraries")) with
      | some (.arr days) =>
        if days.isEmpty then .error (S ("daily_itineraries cannot be empty"))
        else validateDays days
      | some _ => .error (S ("daily_itineraries must be a list"))
      | none => .error (S ("daily_itineraries must be a list"))
  | _ => .error (S ("list indices must be integers"))

/-- The four-component cost of an assembled day, in the order of
`EstimatedCosts.dict().values()`. -/
def dayCost (d : DailyItinerary) : Rat :=
  d.estimated_costs.activities + d.estimated_costs.meals +
    d.estimated_costs.transport + d.estimated_costs.accommodation

/-- Embedding of `_parse_itinerary_response` after JSON decoding: structural
validation, per-day construction, recomputed total cost, and the final
`ItineraryResponse` with its fixed reference data. -/
def parseItinerary (data : Json) (weatherData : WeatherResponse) :
    Except PyStr ItineraryResponse := do
  validateItineraryData data
  match data with
  | .obj o => do
    let days ← match dGet o (S ("daily_itineraries")) with
      | some (.arr ds) => ds.mapM (buildDay weatherData)
      | _ => .error (S ("daily_itineraries must be a list"))
    let total_cost := (days.map dayCost).sum
    let trip_summary ← tripSummaryOfJson ((dGet o (S ("trip_summary"))).getD .null)
    let recommendations ← recommendationsOfJson ((dGet o (S ("recommendations"))).getD (.arr []))
    .ok { trip_summary := trip_summary, daily_itineraries := days,
          total_cost := total_cost, recommendations := recommendations,
          weather_forecast := weatherData.weather_forecast,
          transport_options := [],
          emergency_contacts := [(S ("police"), S ("112")), (S ("ambulance"), S ("112")),
            (S ("tourist_helpline"), S ("1363"))],
          useful_phrases := [(S ("hello"), S ("Hello")), (S ("thank_you"), S ("Thank you")),
            (S ("help"), S ("Help"))] }
  | _ => .error (S ("list indices must be integers"))

deriving instance DecidableEq for Except

/-- Whether an embedded computation succeeded. -/
def exOk {α : Type} (e : Except PyStr α) : Bool :=
  match e with
  | .ok _ => true
  | .error _ => false

/-- A concrete well-formed parsed itinerary object used by witnesses. -/
def witnessTripSummary : Json := .obj [
  (S ("trip_dates"), .str (S ("2025-02-01 to 2025-02-05"))),
  (S ("destination"), .str (S ("Paris"))),
  (S ("budget"), .str (S ("2000"))),
  (S ("preferences"), .str (S ("museums"))),
  (S ("must_visit_places"), .str (S ("Louvre"))),
  (S ("trip_goal"), .str (S ("sightseeing")))]

/-- A concrete daily-plan entry with costs 10 and "20.5". -/
def witnessDay : Json := .obj [
  (S ("date"), .str (S ("2025-02-01"))),
  (S ("activities"), .arr [.obj [(S ("time"), .str (S ("09:00"))),
    (S ("description"), .str (S ("walk")))]]),
  (S ("meals"), .arr []),
  (S ("transport"), .arr []),
  (S ("accommodation"), .int 5),
  (S ("estimated_costs"), .obj [(S ("activities"), .float 10),
    (S ("meals"), .str (S ("20.5")))])]

/-- The concrete top-level object fields for the C2 witness. -/
def witnessTopC2 : List (PyStr × Json) := [
  (S ("trip_summary"), witnessTripSummary),
  (S ("daily_itineraries"), .arr [witnessDay]),
  (S ("recommendations"), .arr [.str (S ("pack light"))])]

/-- The concrete authoritative weather data for witnesses. -/
def witnessWeather : WeatherResponse := { weather_forecast := [
  { date := S ("2025-02-01"), temperature_celsius := S ("5"),
    condition := S ("Cloudy"), precipitation_chance := S ("10"),
    humidity := S ("70") }] }

/-- JSON whitespace as skipped by Python's `json.loads` scanner. -/
def jsonWs (c : Char) : Bool :=
  c == ' ' || c == '\t' || c == '\n' || c == '\r'

/-- Split at the first occurrence of `marker`: `some (before, after)`, or
`none` when `marker` does not occur.  (`marker` is nonempty at every use.) -/
def splitFirst (marker : PyStr) : PyStr → Option (PyStr × PyStr)
  | [] => none
  | c :: rest =>
    if marker.isPrefixOf (c :: rest) then some ([], (c :: rest).drop marker.length)
    else
      match splitFirst marker rest with
      | some (a, b) => some (c :: a, b)
      | none => none

/-- The fenced-code-block extraction of `_clean_json_string`:
`json_str.split("```json")[1].split("```")[0]` guarded by
`"```json" in json_str`.  Because "```json" itself starts with "```", the
`[1]` segment (capped at the second "```json") cut at its first "```"
coincides with the text after the first "```json" cut at the next "```". -/
def extractFence (l : PyStr) : PyStr :=
  match splitFirst (S ("```json")) l with
  | none => l
  | some (_, after) =>
    match splitFirst (S ("```")) after with
    | none => after
    | some (before, _) => before

/-- Consume `\s*` then a closing `\x7d`/`]`: the tail of a
`,(\s*[\x7d\]])` regex match.  Returns the whitespace run, the closing
bracket, and the remainder. -/
def wsCloseSplit : PyStr → Option (PyStr × Char × PyStr)
  | [] => none
  | c :: rest =>
    if c = '}' ∨ c = ']' then some ([], c, rest)
    else if pyWs c then
      match wsCloseSplit rest with
      | some (ws, cl, r) => some (c :: ws, cl, r)
      | none => none
    else none

/-- `re.sub(r',(\s*[\x7d\]])', r'\1', s)`, fuelled: delete each comma that
is followed (after optional whitespace) by a closing brace/bracket;
scanning resumes after the replaced text, as `re.sub` does.  Each step
consumes at least one input character, so fuel = input length suffices and
the fuelled function agrees with the regex substitution. -/
def stripTrailingCommasAux : Nat → PyStr → PyStr
  | 0, l => l
  | _ + 1, [] => []
  | fuel + 1, c :: rest =>
    if c = ',' then
      match wsCloseSplit rest with
      | some (ws, cl, r) => ws ++ cl :: stripTrailingCommasAux fuel r
      | none => ',' :: stripTrailingCommasAux fuel rest
    else c :: stripTrailingCommasAux fuel rest

def stripTrailingCommas (l : PyStr) : PyStr := stripTrailingCommasAux l.length l

/-- Embedding of `ItineraryGeneratorAgent._clean_json_string`: fence
extraction, trailing-comma deletion, whitespace strip. -/
def cleanJsonString (l : PyStr) : PyStr :=
  pyStrip (stripTrailingCommas (extractFence l))

/-- Value of a hex digit. -/
def hexVal? (c : Char) : Option Nat :=
  if c.isDigit then some (c.toNat - 48)
  else if 'a' ≤ c ∧ c ≤ 'f' then some (c.toNat - 87)
  else if 'A' ≤ c ∧ c ≤ 'F' then some (c.toNat - 55)
  else none

/-- The single-character JSON string escapes. -/
def escChar? (e : Char) : Option Char :=
  if e = '"' then some '"'
  else if e = '\\' then some '\\'
  else if e = '/' then some '/'
  else if e = 'b' then some (Char.ofNat 8)
  else if e = 'f' then some (Char.ofNat 12)
  else if e = 'n' then some '\n'
  else if e = 'r' then some '\r'
  else if e = 't' then some '\t'
  else none

/-- JSON string body lexer (after the opening quote): standard escapes,
`\uXXXX`, raw control characters rejected (strict `json.loads`).  Returns
the decoded content and the remainder after the closing quote. -/
def parseJsonString : PyStr → Option (PyStr × PyStr)
  | [] => none
  | '"' :: rest => some ([], rest)
  | '\\' :: e :: rest =>
    if e = 'u' then
      match rest with
      | a :: b :: c :: d :: rest2 =>
        match hexVal? a, hexVal? b, hexVal? c, hexVal? d with
        | some va, some vb, some vc, some vd =>
          (parseJsonString rest2).map
            (fun p => (Char.ofNat (((va * 16 + vb) * 16 + vc) * 16 + vd) :: p.1, p.2))
        | _, _, _, _ => none
      | _ => none
    else
      match escChar? e with
      | some ch => (parseJsonString rest).map (fun p => (ch :: p.1, p.2))
      | none => none
  | c :: rest =>
    if c.toNat < 32 then none
    else (parseJsonString rest).map (fun p => (c :: p.1, p.2))

/-- The optional leading minus sign of a JSON number. -/
def lexSign : PyStr → Bool × PyStr
  | '-' :: r => (true, r)
  | r => (false, r)

/-- The integer part `0|[1-9]\\d*` of a JSON number (first char known to be
a digit). -/
def lexIp (c : Char) (rest : PyStr) : PyStr × PyStr :=
  if c = '0' then (['0'], rest)
  else ((c :: rest).takeWhile Char.isDigit, (c :: rest).dropWhile Char.isDigit)

/-- The optional fraction part `(\\.\\d+)?` of a JSON number. -/
def lexFrac : PyStr → PyStr × PyStr
  | '.' :: rr =>
    let ds := rr.takeWhile Char.isDigit
    if ds.isEmpty then ([], '.' :: rr) else (ds, rr.dropWhile Char.isDigit)
  | r => ([], r)

/-- The optional exponent part `([eE][-+]?\\d+)?` of a JSON number. -/
def lexExp (r : PyStr) : Option Int × PyStr :=
  match r with
  | e :: rr =>
    if e = 'e' ∨ e = 'E' then
      let sgnAndRest : Int × PyStr :=
        match rr with
        | c :: q => if c = '+' then (1, q) else if c = '-' then (-1, q) else (1, c :: q)
        | [] => (1, [])
      let ds := sgnAndRest.2.takeWhile Char.isDigit
      if ds.isEmpty then (none, r)
      else (some (sgnAndRest.1 * (digitsToNat ds : Int)), sgnAndRest.2.dropWhile Char.isDigit)
    else (none, r)
  | [] => (none, r)

/-- JSON number lexer after the sign, following Python's `NUMBER_RE`:
`(0|[1-9]\\d*)(\\.\\d+)?([eE][-+]?\\d+)?`; without fraction and exponent the
token is an `int`, otherwise a `float`. -/
def parseJsonNumberCore (neg : Bool) (l1 : PyStr) : Option (Json × PyStr) :=
  match l1 with
  | [] => none
  | c :: rest =>
    if !c.isDigit then none
    else
      let ir := lexIp c rest
      let fr := lexFrac ir.2
      let er := lexExp fr.2
      if fr.1.isEmpty && er.1.isNone then
        some (.int (if neg then -(digitsToNat ir.1 : Int) else (digitsToNat ir.1 : Int)), ir.2)
      else
        let mag : Rat := (digitsToNat ir.1 : Rat) + (digitsToNat fr.1 : Rat) / ((10 : Rat) ^ fr.1.length)
        let scaled : Rat :=
          match er.1 with
          | none => mag
          | some e =>
            if e ≥ 0 then mag * ((10 : Rat) ^ e.toNat) else mag / ((10 : Rat) ^ (-e).toNat)
        some (.float (if neg then -scaled else scaled), er.2)

/-- JSON number lexer: optional sign, then `parseJsonNumberCore`. -/
def parseJsonNumber (l : PyStr) : Option (Json × PyStr) :=
  parseJsonNumberCore (lexSign l).1 (lexSign l).2

mutual

/-- Fueled JSON value parser mirroring Python's `json.loads` grammar; every
recursive call decrements the fuel, and the entry point supplies more fuel
than any input can consume. -/
def parseJsonValue : Nat → PyStr → Option (Json × PyStr)
  | 0, _ => none
  | _ + 1, [] => none
  | fuel + 1, c :: rest =>
    if c = '"' then (parseJsonString rest).map (fun p => (Json.str p.1, p.2))
    else if c = '{' then
      let l1 := rest.dropWhile jsonWs
      match l1 with
      | '}' :: r => some (.obj [], r)
      | _ => parseJsonMembers fuel l1 []
    else if c = '[' then
      let l1 := rest.dropWhile jsonWs
      match l1 with
      | ']' :: r => some (.arr [], r)
      | _ => parseJsonElements fuel l1 []
    else if c = 't' then
      if (S ("rue")).isPrefixOf rest then some (.bool true, rest.drop 3) else none
    else if c = 'f' then
      if (S ("alse")).isPrefixOf rest then some (.bool false, rest.drop 4) else none
    else if c = 'n' then
      if (S ("ull")).isPrefixOf rest then some (.null, rest.drop 3) else none
    else if c = '-' ∨ c.isDigit then parseJsonNumber (c :: rest)
    else none

/-- Object members: `"key" ws : ws value ws (, ws ... | \x7d)`; duplicate
keys overwrite as in a Python dict. -/
def parseJsonMembers : Nat → PyStr → List (PyStr × Json) → Option (Json × PyStr)
  | 0, _, _ => none
  | fuel + 1, l, acc =>
    match l with
    | '"' :: rest =>
      match parseJsonString rest with
      | none => none
      | some (k, r1) =>
        match r1.dropWhile jsonWs with
        | ':' :: r3 =>
          match parseJsonValue fuel (r3.dropWhile jsonWs) with
          | none => none
          | some (v, r5) =>
            match r5.dropWhile jsonWs with
            | ',' :: r7 => parseJsonMembers fuel (r7.dropWhile jsonWs) (dSet acc k v)
            | '}' :: r7 => some (.obj (dSet acc k v), r7)
            | _ => none
        | _ => none
    | _ => none

/-- Array elements: `value ws (, ws ... | ])`. -/
def parseJsonElements : Nat → PyStr → List Json → Option (Json × PyStr)
  | 0, _, _ => none
  | fuel + 1, l, acc =>
    match parseJsonValue fuel l with
    | none => none
    | some (v, r1) =>
      match r1.dropWhile jsonWs with
      | ',' :: r3 => parseJsonElements fuel (r3.dropWhile jsonWs) (acc ++ [v])
      | ']' :: r3 => some (.arr (acc ++ [v]), r3)
      | _ => none

end

/-- Strip surrounding JSON whitespace. -/
def jsonTrim (l : PyStr) : PyStr :=
  ((l.dropWhile jsonWs).reverse.dropWhile jsonWs).reverse

/-- Embedding of `json.loads`: the trimmed text must parse as exactly one
JSON value.  (`json.loads` itself skips surrounding whitespace and rejects
any trailing text; trimming first is equivalent.) -/
def pyJsonLoads (l : PyStr) : Option Json :=
  let c := jsonTrim l
  match parseJsonValue (2 * c.length + 2) c with
  | some (v, []) => some v
  | _ => none

/-- `re.sub(r'[^\x20-\x7E]', '', json_str)`: the aggressive second-pass
cleanup deleting every non-printable character. -/
def filterPrintable (l : PyStr) : PyStr :=
  l.filter (fun c => decide (32 ≤ c.toNat ∧ c.toNat ≤ 126))

/-- `ItineraryGeneratorAgent._parse_itinerary_response` from the raw
response text: clean, `json.loads`, on a decode error retry once on the
printable-filtered text, then validate and assemble (the decode-error
message itself is not modelled). -/
def parseItineraryResponseText (txt : PyStr) (weatherData : WeatherResponse) :
    Except PyStr ItineraryResponse :=
  let js := cleanJsonString txt
  match pyJsonLoads js with
  | some data => parseItinerary data weatherData
  | none =>
    match pyJsonLoads (filterPrintable js) with
    | some data => parseItinerary data weatherData
    | none => .error (S ("JSONDecodeError"))

/-- `ItineraryGeneratorAgent.generate_itinerary`: the guard on weather
data, the external model response (modelled as `Option PyStr`: `none` for a
missing response object, and the empty string is falsy in Python, so both
fail the `not response or not response.text` check), the parse, and the
final non-empty validation.  The prompt composition only feeds the external
call, which is a parameter here; `TravelInput`'s validator guarantees its
date fields parse, so composing the prompt itself does not raise. -/
def generateItinerary (weatherData : WeatherResponse)
    (response : Option PyStr) : Except PyStr ItineraryResponse :=
  if weatherData.weather_forecast.isEmpty then
    .error (S ("Weather data is required for itinerary generation"))
  else
    match response with
    | none => .error (S ("Failed to generate itinerary content"))
    | some txt =>
      if txt.isEmpty then .error (S ("Failed to generate itinerary content"))
      else
        match parseItineraryResponseText txt weatherData with
        | .error e => .error e
        | .ok result =>
          if result.daily_itineraries.isEmpty then
            .error (S ("Generated itinerary is invalid or empty"))
          else .ok result

/-- The literal `instructions` block of `_create_itinerary_prompt`. -/
def promptInstructions : PyStr :=
  S ("Please create a detailed itinerary that includes:\n1. Trip Summary:\n   - Overview of the complete journey\n") ++
  S ("   - Daily highlights and main attractions\n   - Budget allocation strategy\n   - Weather contingency plans\n") ++
  S ("\n2. Daily Itineraries:\n   - Weather-appropriate activities\n   - Meal recommendations matching preferences\n") ++
  S ("   - Transport logistics between locations\n   - Accommodation details with area benefits\n") ++
  S ("   - Backup plans for weather-sensitive activities\n   - Weather summary for the day\n   - Local events happening that day\n") ++
  S ("   - Daily route with coordinates\n\n3. Practical Considerations:\n   - Indoor alternatives for bad weather\n") ++
  S ("   - Rest periods between activities\n   - Transport connection times\n   - Meal timing with activities\n") ++
  S ("   - Local customs and etiquette\n\n4. Cost Management:\n   - Activity costs with alternatives\n") ++
  S ("   - Transport fare estimates\n   - Meal budget options\n   - Accommodation rates\n   - Emergency fund allocation\n") ++
  S ("\n")

/-- The literal `response_format` block of `_create_itinerary_prompt`. -/
def responseFormat : PyStr :=
  S ("\x7b\n    \"trip_summary\": \x7b\n        \"trip_dates\": \"string\",\n        \"destination\": \"string\",\n") ++
  S ("        \"budget\": \"string\",\n        \"preferences\": \"string\",\n        \"must_visit_places\": \"string\",\n") ++
  S ("        \"trip_goal\": \"string\"\n    \x7d,\n    \"daily_itineraries\": [\n        \x7b\n") ++
  S ("            \"date\": \"YYYY-MM-DD\",\n            \"activities\": [\n                \x7b\"time\": \"HH:MM\", \"description\": \"activity description\"\x7d\n") ++
  S ("            ],\n            \"meals\": [\n                \x7b\"type\": \"breakfast/lunch/dinner\", \"suggestion\": \"restaurant or meal suggestion\"\x7d\n") ++
  S ("            ],\n            \"transport\": [\n                \x7b\"time\": \"HH:MM\", \"description\": \"transport details\"\x7d\n") ++
  S ("            ],\n            \"accommodation\": \x7b\n                \"name\": \"hotel/guest house name\",\n") ++
  S ("                \"address\": \"area or full address\",\n                \"details\": \"additional details\"\n") ++
  S ("            \x7d,\n            \"weather\": \x7b\n                \"temperature_celsius\": \"string\",\n") ++
  S ("                \"condition\": \"string\",\n                \"precipitation_chance\": \"string\",\n") ++
  S ("                \"humidity\": \"string\"\n            \x7d,\n            \"weather_summary\": \x7b\n") ++
  S ("                \"description\": \"string\",\n                \"recommendations\": \"string\"\n") ++
  S ("            \x7d,\n            \"local_events\": [\n                \x7b\"name\": \"string\", \"time\": \"string\", \"location\": \"string\"\x7d\n") ++
  S ("            ],\n            \"daily_route\": [\n                \x7b\n                    \"latitude\": 48.8566,\n") ++
  S ("                    \"longitude\": 2.3522,\n                    \"stop_name\": \"Location Name\"\n") ++
  S ("                \x7d\n            ],\n            \"estimated_costs\": \x7b\n                \"activities\": float,\n") ++
  S ("                \"meals\": float,\n                \"transport\": float,\n                \"accommodation\": float\n") ++
  S ("            \x7d\n        \x7d\n    ],\n    \"total_cost\": float,\n    \"recommendations\": [\"recommendation1\", \"recommendation2\"],\n") ++
  S ("    \"weather_forecast\": [\n        \x7b\n            \"date\": \"YYYY-MM-DD\",\n            \"temperature_celsius\": \"string\",\n") ++
  S ("            \"condition\": \"string\",\n            \"precipitation_chance\": \"string\",\n") ++
  S ("            \"humidity\": \"string\"\n        \x7d\n    ]\n\x7d")

/-- `schemas.inputs.TravelInput` (its validator guarantees the two date
fields parse with `strptime "%Y-%m-%d"`). -/
structure TravelInput where
  origin : PyStr
  destination : PyStr
  start_date : PyStr
  return_date : PyStr

deriving DecidableEq

/-- `schemas.inputs.UserPreferences`.  Python floats are modelled as `Rat`;
the `Optional` transport list defaults to `[]`, and both `None` and the
empty list are falsy in the composer's `if` test, so a plain list suffices. -/
structure UserPreferences where
  budget : Rat
  activities : List PyStr := []
  meal_preferences : List PyStr := []
  preferred_places : List PyStr := []
  transport_preferences : List PyStr := []
  accommodation_type : Option PyStr := none

deriving DecidableEq

/-- Length of a month, as `datetime.strptime` validates it. -/
def daysInMonth (y m : Nat) : Nat :=
  if m = 2 then (if (y % 4 = 0 ∧ y % 100 ≠ 0) ∨ y % 400 = 0 then 29 else 28)
  else if m = 4 ∨ m = 6 ∨ m = 9 ∨ m = 11 then 30 else 31

/-- `datetime.strptime(s, "%Y-%m-%d").date()`: digits, dash, digits, dash,
digits, with a calendar-valid month and day. -/
def parseDateYmd? (s : PyStr) : Option (Nat × Nat × Nat) :=
  let y := s.takeWhile Char.isDigit
  match s.dropWhile Char.isDigit with
  | '-' :: r2 =>
    let m := r2.takeWhile Char.isDigit
    match r2.dropWhile Char.isDigit with
    | '-' :: r4 =>
      let d := r4.takeWhile Char.isDigit
      if y ≠ [] ∧ m ≠ [] ∧ d ≠ [] ∧ r4.dropWhile Char.isDigit = [] then
        let yn := digitsToNat y
        let mn := digitsToNat m
        let dn := digitsToNat d
        if 1 ≤ mn ∧ mn ≤ 12 ∧ 1 ≤ dn ∧ dn ≤ daysInMonth yn mn then some (yn, mn, dn)
        else none
      else none
    | _ => none
  | _ => none

/-- Proleptic-Gregorian day number (days since 1970-01-01), the standard
civil-from-date computation; `(d2 - d1).days` on Python `date`s is the
difference of these numbers. -/
def civilOrdinal (y m d : Nat) : Int :=
  let y' := if m ≤ 2 then y - 1 else y
  let era := y' / 400
  let yoe := y' % 400
  let mp := if m ≤ 2 then m + 9 else m - 3
  let doy := (153 * mp + 2) / 5 + (d - 1)
  let doe := yoe * 365 + yoe / 4 - yoe / 100 + doy
  (era : Int) * 146097 + (doe : Int) - 719468

/-- The hard-coded `weather_activities` dict of
`_generate_weather_based_suggestions`, in insertion order. -/
def weatherActivities : List (PyStr × List PyStr) := [
  (S ("sunny"), [S ("Schedule outdoor activities early morning or late afternoon"),
    S ("Include water-based activities"), S ("Plan for shade breaks"),
    S ("Consider indoor alternatives during peak heat")]),
  (S ("rainy"), [S ("Prioritize indoor cultural activities"),
    S ("Have backup indoor plans for outdoor activities"),
    S ("Include covered transport options"),
    S ("Schedule flexible activities that can be moved")]),
  (S ("cloudy"), [S ("Ideal for outdoor sightseeing"), S ("Good for photography tours"),
    S ("Plan mix of indoor and outdoor activities"),
    S ("Include weather-independent activities")]),
  (S ("clear"), [S ("Perfect for outdoor adventures"),
    S ("Schedule sunset viewing opportunities"), S ("Plan outdoor dining experiences"),
    S ("Include nature-based activities")])]

/-- The inner loop of `_generate_weather_based_suggestions`: the first dict
entry whose key is a substring of the condition contributes its activities
(`break` after the first match). -/
def suggestionsFor (cond : PyStr) : List PyStr :=
  match weatherActivities.find? (fun p => pyIn p.1 cond) with
  | some p => p.2
  | none => []

/-- The `suggestions` list accumulated by iterating the condition set in
the order `condOrder`. -/
def suggestionsList (condOrder : List PyStr) : List PyStr :=
  condOrder.flatMap suggestionsFor

/-- The multiset of lowercased conditions inserted into the
`weather_conditions` set. -/
def condSet (w : WeatherResponse) : List PyStr :=
  w.weather_forecast.map (fun d => pyLower d.condition)

/-- `condOrder` is a possible iteration order of the Python set
`weather_conditions`: each distinct element exactly once. -/
def admissibleCondOrder (w : WeatherResponse) (condOrder : List PyStr) : Prop :=
  condOrder.Nodup ∧ (∀ c ∈ condOrder, c ∈ condSet w) ∧ (∀ c ∈ condSet w, c ∈ condOrder)

/-- `suggOrder` is a possible iteration order of `set(suggestions)`. -/
def admissibleSuggOrder (condOrder suggOrder : List PyStr) : Prop :=
  suggOrder.Nodup ∧ (∀ s ∈ suggOrder, s ∈ suggestionsList condOrder) ∧
    (∀ s ∈ suggestionsList condOrder, s ∈ suggOrder)

instance (w : WeatherResponse) (co : List PyStr) : Decidable (admissibleCondOrder w co) := by
  unfold admissibleCondOrder
  infer_instance

instance (co so : List PyStr) : Decidable (admissibleSuggOrder co so) := by
  unfold admissibleSuggOrder
  infer_instance

/-- `json.dumps(v, indent=2)` at nesting level `lvl` (ASCII data free of
characters needing JSON escaping, as everywhere in this embedding). -/
def dumpsInd (lvl : Nat) : Json → PyStr
  | .null => S ("null")
  | .bool b => if b then S ("true") else S ("false")
  | .int n => intRepr n
  | .float q => floatRepr q
  | .str s => '"' :: s ++ ['"']
  | .arr xs =>
    if h : xs.isEmpty then S ("[]")
    else '[' :: '\n' :: (List.intercalate (S (",\n"))
        (xs.attach.map (fun x => List.replicate (2 * (lvl + 1)) ' ' ++ dumpsInd (lvl + 1) x.1)))
      ++ '\n' :: List.replicate (2 * lvl) ' ' ++ [']']
  | .obj o =>
    if h : o.isEmpty then S ("\x7b\x7d")
    else S ("\x7b") ++ ['\n'] ++ (List.intercalate (S (",\n"))
        (o.attach.map (fun p => List.replicate (2 * (lvl + 1)) ' ' ++ '"' :: p.1.1
          ++ S ("\": ") ++ dumpsInd (lvl + 1) p.1.2)))
      ++ ['\n'] ++ List.replicate (2 * lvl) ' ' ++ S ("\x7d")
termination_by j => sizeOf j
decreasing_by
  · have h1 : sizeOf x.1 < sizeOf xs := List.sizeOf_lt_of_mem x.2
    simp only [Json.arr.sizeOf_spec]
    omega
  · have h1 : sizeOf p.1 < sizeOf o := List.sizeOf_lt_of_mem p.2
    have h2 : sizeOf p.1.2 < sizeOf p.1 := by
      rcases p.1 with ⟨a, b⟩
      simp only [Prod.mk.sizeOf_spec]
      omega
    simp only [Json.obj.sizeOf_spec]
    omega

/-- Stable insertion of a scored event into a descending-by-score list: a
later-inserted element passes every earlier element of not-smaller score,
matching Python's stable `list.sort(key=..., reverse=True)`. -/
def insertDesc (x : LocalEvent × Rat) : List (LocalEvent × Rat) → List (LocalEvent × Rat)
  | [] => [x]
  | y :: rest => if x.2 ≥ y.2 then x :: y :: rest else y :: insertDesc x rest

/-- `events_info.sort(key=lambda x: x["relevance"], reverse=True)`: stable
descending sort by relevance. -/
def sortByRelevanceDesc : List (LocalEvent × Rat) → List (LocalEvent × Rat)
  | [] => []
  | x :: xs => insertDesc x (sortByRelevanceDesc xs)

/-- `', '.join(xs)`. -/
def joinComma (xs : List PyStr) : PyStr := List.intercalate (S (", ")) xs

/-- `ItineraryGeneratorAgent._create_itinerary_prompt`, parameterised by
the two Python-set iteration orders it observes (`weather_conditions` and
`set(suggestions)`); `condOrder` is used both by the header join and by the
suggestion loop, as one run iterates one set consistently.  Budget floats
are `Rat` (the percentage literals 0.4/0.3/0.2/0.1 as exact ratios; on the
inputs exercised the IEEE results format identically under `:.2f`).
Errors model the exceptions the Python code can raise: an unparseable
precipitation probability inside the relevance scorer, an unparseable date
(excluded by `TravelInput`'s validator), and a zero-day date span
(`ZeroDivisionError`). -/
def createItineraryPrompt (ti : TravelInput) (up : UserPreferences)
    (w : WeatherResponse) (condOrder suggOrder : List PyStr) :
    Except PyStr PyStr := do
  let weatherInfoJ : Json := .arr (w.weather_forecast.map (fun d => .obj [
    (S ("date"), .str d.date), (S ("temperature"), .str d.temperature_celsius),
    (S ("condition"), .str d.condition),
    (S ("precipitation_chance"), .str d.precipitation_chance),
    (S ("humidity"), .str d.humidity)]))
  let activitySuggestions :=
    List.intercalate (S ("\n")) (suggOrder.map (fun s => S ("- ") ++ s))
  let scored ← w.local_events.mapM (fun e =>
    match calculateEventRelevance e up.activities w.weather_forecast with
    | some r => Except.ok (e, r)
    | none => Except.error (S ("could not convert string to float")))
  let eventsJ : Json := .arr (((sortByRelevanceDesc scored).take 5).map (fun p => .obj [
    (S ("name"), .str p.1.name), (S ("date"), .str p.1.date),
    (S ("venue"), .str p.1.venue), (S ("category"), .str p.1.category),
    (S ("price_range"), .str p.1.price_range), (S ("relevance"), .float p.2)]))
  let sd ← match parseDateYmd? ti.start_date with
    | some x => Except.ok x
    | none => Except.error (S ("time data does not match format"))
  let ed ← match parseDateYmd? ti.return_date with
    | some x => Except.ok x
    | none => Except.error (S ("time data does not match format"))
  let days : Int := civilOrdinal ed.1 ed.2.1 ed.2.2 - civilOrdinal sd.1 sd.2.1 sd.2.2 + 1
  if days = 0 then Except.error (S ("float division by zero")) else
  let dailyBudget : Rat := up.budget / (days : Rat)
  let transportPrefs := if up.transport_preferences.isEmpty then S ("Any")
    else joinComma up.transport_preferences
  let accommodation := match up.accommodation_type with
    | some a => if a.isEmpty then S ("Any") else a
    | none => S ("Any")
  let header :=
    S ("As a travel itinerary expert, create a detailed day-by-day travel plan for a trip from ")
    ++ ti.origin ++ S (" to ") ++ ti.destination ++ S (" from ") ++ ti.start_date
    ++ S (" to ") ++ ti.return_date ++ S (".\n\nThe destination ") ++ ti.destination
    ++ S (" typically experiences ") ++ joinComma condOrder
    ++ S (" during this period. Plan activities accordingly and include indoor alternatives where appropriate.\n\n")
  let preferences :=
    S ("User Preferences:\n- Daily Budget: $") ++ fmtFixed2 dailyBudget
    ++ S (" (Total: $") ++ floatRepr up.budget
    ++ S (")\n  * Suggested split: \n    - Activities: 40% ($")
    ++ fmtFixed2 (dailyBudget * (2/5))
    ++ S (")\n    - Meals: 30% ($") ++ fmtFixed2 (dailyBudget * (3/10))
    ++ S (")\n    - Transport: 20% ($") ++ fmtFixed2 (dailyBudget * (1/5))
    ++ S (")\n    - Contingency: 10% ($") ++ fmtFixed2 (dailyBudget * (1/10))
    ++ S (")\n- Preferred Activities: ") ++ joinComma up.activities
    ++ S ("\n- Meal Preferences: ") ++ joinComma up.meal_preferences
    ++ S ("\n- Must-Visit Places: ") ++ joinComma up.preferred_places
    ++ S ("\n- Transport Preferences: ") ++ transportPrefs
    ++ S ("\n- Accommodation Type: ") ++ accommodation
    ++ S ("\n\nWeather-Based Activity Suggestions:\n") ++ activitySuggestions ++ S ("\n\n")
  let dataSection :=
    S ("Daily Weather Forecast:\n") ++ dumpsInd 0 weatherInfoJ
    ++ S ("\n\nLocal Events (Sorted by Relevance to User Preferences):\n")
    ++ dumpsInd 0 eventsJ
    ++ S ("  # Show top 5 most relevant events\n\nEvent Integration Guidelines:\n")
    ++ S ("- Prioritize events with relevance score > 1.5\n")
    ++ S ("- Consider weather conditions when scheduling outdoor events\n")
    ++ S ("- Ensure event timing aligns with daily schedule\n")
    ++ S ("- Account for transport time to/from events\n\n")
  Except.ok (header ++ preferences ++ dataSection ++ promptInstructions
    ++ S ("Format the response as a JSON object with this structure:\n") ++ responseFormat)

/-- First `n` characters of either payload of an `Except`, used to
discriminate concrete composer outputs without forcing their full text. -/
def exTake (n : Nat) (e : Except PyStr PyStr) : PyStr :=
  match e with
  | .ok l => l.take n
  | .error l => l.take n

/-- The concrete trip of the end-to-end budget example: Delhi to Paris,
2025-02-01 to 2025-02-05. -/
def tiT : TravelInput :=
  { origin := S ("Delhi"), destination := S ("Paris"),
    start_date := S ("2025-02-01"), return_date := S ("2025-02-05") }

/-- The concrete preferences of the budget example: total budget 2000. -/
def upT : UserPreferences :=
  { budget := 2000, activities := [S ("museums")],
    meal_preferences := [S ("vegan")], preferred_places := [S ("Louvre")] }

/-- One admissible iteration order of `set(suggestions)` for the single
condition "cloudy" (the order observed in one CPython run). -/
def soT : List PyStr := [S ("Good for photography tours"),
  S ("Plan mix of indoor and outdoor activities"),
  S ("Ideal for outdoor sightseeing"), S ("Include weather-independent activities")]

/-- Two-day forecast with two distinct conditions, giving the
`weather_conditions` set two possible iteration orders. -/
def wC7 : WeatherResponse := { weather_forecast := [
  { date := S ("2025-02-01"), temperature_celsius := S ("25"),
    condition := S ("Sunny"), precipitation_chance := S ("5"),
    humidity := S ("40") },
  { date := S ("2025-02-02"), temperature_celsius := S ("18"),
    condition := S ("Rainy"), precipitation_chance := S ("80"),
    humidity := S ("85") }] }

/-- One admissible iteration order of the two-condition set. -/
def coA : List PyStr := [S ("sunny"), S ("rainy")]

/-- The other admissible iteration order of the two-condition set. -/
def coB : List PyStr := [S ("rainy"), S ("sunny")]

/-- A suggestion-set order admissible for both condition orders (the
suggestion set does not depend on the condition order). -/
def soC : List PyStr := (suggestionsList coA).dedup

/-- One-day forecast whose condition matches no suggestion key, so both
sets iterated by the composer have at most one element. -/
def wFog : WeatherResponse := { weather_forecast := [
  { date := S ("2025-02-01"), temperature_celsius := S ("8"),
    condition := S ("Fog"), precipitation_chance := S ("15"),
    humidity := S ("95") }] }

/-- The prompt composed for the concrete budget example under the
iteration orders `["cloudy"]` and `soT`. -/
def promptC8val : PyStr :=
  match createItineraryPrompt tiT upT witnessWeather [S ("cloudy")] soT with
  | .ok p => p
  | .error e => e

theorem foldl_score_eq (P : PyStr → Bool) (acts : List PyStr) (init : Rat) :
    acts.foldl (fun s a => if P a then s + 1 else s) init = init + acts.countP P := by
  induction acts generalizing init with
  | nil => simp
  | cons h t ih =>
    simp only [List.foldl_cons, List.countP_cons, ih]
    by_cases hP : P h
    · simp only [hP, if_true]
      push_cast
      ring
    · simp [hP]

theorem find?_key_nodup {α : Type} (key : α → PyStr) (l : List α) (w : α) (k : PyStr)
    (hnodup : (l.map key).Nodup) (hmem : w ∈ l) (hkey : key w = k) :
    l.find? (fun x => key x == k) = some w := by
  induction l with
  | nil => cases hmem
  | cons h t ih =>
    rcases List.mem_cons.mp hmem with rfl | hmem'
    · simp [List.find?, hkey]
    · have hne : key h ≠ k := by
        intro hEq
        have : key w ∈ t.map key := List.mem_map_of_mem key hmem'
        rw [hkey] at this
        rw [← hEq] at this
        exact (List.nodup_cons.mp (by simpa using hnodup)).1 this
      have : (key h == k) = false := by simpa using hne
      simp only [List.find?, this]
      exact ih (List.nodup_cons.mp (by simpa using hnodup)).2 hmem'

theorem baseScore_eq (e : LocalEvent) (acts : List PyStr) :
    baseScore e acts = 1 + (matchCount e acts : Rat) := by
  unfold baseScore matchCount
  rw [foldl_score_eq]

theorem relevance_not_outdoor (e : LocalEvent) (score : Rat) (fc : List WeatherInfo)
    (hout : outdoorEvent e = false) : relevanceAux e score fc = some score := by
  unfold relevanceAux
  cases hfind : fc.find? (fun w => w.date == e.date) with
  | none => rfl
  | some w => simp [hout]

theorem relevance_no_match (e : LocalEvent) (score : Rat) (fc : List WeatherInfo)
    (hnone : ∀ w ∈ fc, w.date ≠ e.date) : relevanceAux e score fc = some score := by
  unfold relevanceAux
  have hfind : fc.find? (fun w => w.date == e.date) = none := by
    rw [List.find?_eq_none]
    intro w hw
    simpa using hnone w hw
  rw [hfind]

theorem sameButPrecip_dates (fc fc' : List WeatherInfo) (h : sameButPrecip fc fc') :
    ∀ w' ∈ fc', ∃ w ∈ fc, w.date = w'.date := by
  induction h with
  | nil => intro w' hw'; cases hw'
  | cons hab _ ih =>
    intro w' hw'
    rcases List.mem_cons.mp hw' with rfl | hw''
    · exact ⟨_, List.mem_cons_self _ _, hab.1⟩
    · rcases ih w' hw'' with ⟨w, hw, hd⟩
      exact ⟨w, List.mem_cons_of_mem _ hw, hd⟩

/-- **C1.** For every CandidateEvent, interest list, and WeatherDay sequence
(with, per the data model, at most one WeatherDay per date): the relevance
score is 1.0, plus 1.0 for each user interest that is a case-insensitive
substring of the event's category (cumulative and order-independent), minus
0.5 if the event's description contains "outdoor" (case-insensitive) and the
matching day's condition contains "rain" (case-insensitive), and
independently minus 0.5 if that matching day's precipitation probability
exceeds 50; with no matching WeatherDay there is no penalty; the result is
not clamped and may be negative (the formula below subtracts freely). -/
theorem relevance_score_formula (e : LocalEvent) (acts acts' : List PyStr)
    (fc : List WeatherInfo) (hperm : acts.Perm acts') :
    calculateEventRelevance e acts fc = calculateEventRelevance e acts' fc ∧
    ((∀ w ∈ fc, w.date ≠ e.date) →
      calculateEventRelevance e acts fc = some (1 + (matchCount e acts : Rat))) ∧
    (∀ w, (fc.map WeatherInfo.date).Nodup → w ∈ fc → w.date = e.date →
      (outdoorEvent e = true → (pyParseFloat? w.precipitation_chance).isSome) →
      calculateEventRelevance e acts fc =
        some (1 + (matchCount e acts : Rat)
          - (if outdoorEvent e ∧ pyIn (S ("rain")) (pyLower w.condition) then 1/2 else 0)
          - (if outdoorEvent e ∧ (pyParseFloat? w.precipitation_chance).getD 0 > 50 then 1/2 else 0))) := by
  refine ⟨?_, ?_, ?_⟩
  · unfold calculateEventRelevance
    have hb : baseScore e acts = baseScore e acts' := by
      rw [baseScore_eq, baseScore_eq]
      unfold matchCount
      rw [hperm.countP_eq]
    rw [hb]
  · intro hnone
    unfold calculateEventRelevance
    rw [relevance_no_match e _ fc hnone, baseScore_eq]
  · intro w hnodup hmem hdate hparse
    unfold calculateEventRelevance relevanceAux
    have hfind : fc.find? (fun x => x.date == e.date) = some w :=
      find?_key_nodup WeatherInfo.date fc w e.date hnodup hmem hdate
    rw [hfind]
    by_cases hout : outdoorEvent e = true
    · rcases Option.isSome_iff_exists.mp (hparse hout) with ⟨p, hp⟩
      simp only [hout, if_true, hp, true_and, baseScore_eq, Option.getD_some]
      by_cases hrain : pyIn (S ("rain")) (pyLower w.condition) = true
      · by_cases h50 : p > 50
        · simp [hrain, h50]
        · simp [hrain, h50]
      · by_cases h50 : p > 50
        · simp [hrain, h50]
        · simp [hrain, h50]
    · have hout' : outdoorEvent e = false := by
        simpa using hout
      simp only [hout', Bool.false_eq_true, if_false, false_and, sub_zero]
      rw [baseScore_eq]

/-- Witness for C1: a concrete event matching two of three interests, held
outdoors on a rainy day with precipitation 60 > 50: score 1 + 2 − 0.5 − 0.5 = 2. -/
theorem relevance_score_formula_witness :
    calculateEventRelevance
      { name := S ("Jazz Night"), date := S ("2025-02-01"), venue := S ("Park"),
        category := S ("Music Festival"), description := S ("An OUTDOOR concert") }
      [S ("music"), S ("art"), S ("FEST")]
      [{ date := S ("2025-02-01"), temperature_celsius := S ("18"),
         condition := S ("Light Rain"), precipitation_chance := S ("60"),
         humidity := S ("80") }] = some 2 := by
  have h := (relevance_score_formula
      { name := S ("Jazz Night"), date := S ("2025-02-01"), venue := S ("Park"),
        category := S ("Music Festival"), description := S ("An OUTDOOR concert") }
      [S ("music"), S ("art"), S ("FEST")] [S ("music"), S ("art"), S ("FEST")]
      [{ date := S ("2025-02-01"), temperature_celsius := S ("18"),
         condition := S ("Light Rain"), precipitation_chance := S ("60"),
         humidity := S ("80") }] (List.Perm.refl _)).2.2
      { date := S ("2025-02-01"), temperature_celsius := S ("18"),
        condition := S ("Light Rain"), precipitation_chance := S ("60"),
        humidity := S ("80") }
      (by decide) (by decide) (by decide) (by with_unfolding_all decide)
  rw [h]
  with_unfolding_all decide

theorem find?_none_of_sameButPrecip (fc fc' : List WeatherInfo) (d : PyStr)
    (h : sameButPrecip fc fc') (hnone : ∀ w ∈ fc, w.date ≠ d) :
    fc'.find? (fun w => w.date == d) = none := by
  rw [List.find?_eq_none]
  intro w' hw'
  rcases sameButPrecip_dates fc fc' h w' hw' with ⟨w, hw, hd⟩
  simpa [← hd] using hnone w hw

/-- **C9.** Over forecasts with at most one WeatherDay per date (the data
model's invariant): when the event's description contains "outdoor"
(case-insensitive) and its date matches a WeatherDay whose
`precipitation_chance` string is not parseable as a number, the relevance
scorer raises (`none`); when the description is not "outdoor" or no
WeatherDay matches, the scorer always returns a value, and that value does
not depend on any `precipitation_chance` field (the field is never parsed). -/
theorem relevance_precip_parse (e : LocalEvent) (acts : List PyStr) (fc : List WeatherInfo)
    (hnodup : (fc.map WeatherInfo.date).Nodup) :
    (∀ w, w ∈ fc → w.date = e.date → outdoorEvent e = true →
      pyParseFloat? w.precipitation_chance = none →
      calculateEventRelevance e acts fc = none) ∧
    ((outdoorEvent e = false ∨ ∀ w ∈ fc, w.date ≠ e.date) →
      (calculateEventRelevance e acts fc).isSome = true) ∧
    (∀ fc', sameButPrecip fc fc' →
      (outdoorEvent e = false ∨ ∀ w ∈ fc, w.date ≠ e.date) →
      calculateEventRelevance e acts fc = calculateEventRelevance e acts fc') := by
  refine ⟨?_, ?_, ?_⟩
  · intro w hmem hdate hout hfail
    unfold calculateEventRelevance relevanceAux
    have hfind : fc.find? (fun x => x.date == e.date) = some w :=
      find?_key_nodup WeatherInfo.date fc w e.date hnodup hmem hdate
    rw [hfind]
    simp [hout, hfail]
  · intro h
    rcases h with hout | hnone
    · rw [calculateEventRelevance, relevance_not_outdoor e _ fc hout]
      rfl
    · rw [calculateEventRelevance, relevance_no_match e _ fc hnone]
      rfl
  · intro fc' hsame h
    rcases h with hout | hnone
    · rw [calculateEventRelevance, relevance_not_outdoor e _ fc hout,
        calculateEventRelevance, relevance_not_outdoor e _ fc' hout]
    · have hnone' : ∀ w ∈ fc', w.date ≠ e.date := by
        intro w' hw' hd
        have := find?_none_of_sameButPrecip fc fc' e.date hsame hnone
        rw [List.find?_eq_none] at this
        exact absurd (by simp [hd]) (this w' hw')
      rw [calculateEventRelevance, relevance_no_match e _ fc hnone,
        calculateEventRelevance, relevance_no_match e _ fc' hnone']

/-- Witness for C9: an outdoor event on a day whose precipitation field is
the unparseable string "unknown" makes the scorer raise; the same event with
a non-outdoor description gets a score. -/
theorem relevance_precip_parse_witness :
    calculateEventRelevance
      { name := S ("Fair"), date := S ("2025-03-01"), venue := S ("Field"),
        category := S ("family"), description := S ("outdoor fair") }
      [] [{ date := S ("2025-03-01"), temperature_celsius := S ("20"),
            condition := S ("Cloudy"), precipitation_chance := S ("unknown"),
            humidity := S ("40") }] = none := by
  exact (relevance_precip_parse
      { name := S ("Fair"), date := S ("2025-03-01"), venue := S ("Field"),
        category := S ("family"), description := S ("outdoor fair") }
      [] [{ date := S ("2025-03-01"), temperature_celsius := S ("20"),
            condition := S ("Cloudy"), precipitation_chance := S ("unknown"),
            humidity := S ("40") }] (by decide)).1
      { date := S ("2025-03-01"), temperature_celsius := S ("20"),
        condition := S ("Cloudy"), precipitation_chance := S ("unknown"),
        humidity := S ("40") }
      (by decide) (by decide) (by decide) (by with_unfolding_all decide)

theorem dGet_dSet_ne (o : List (PyStr × Json)) (k f : PyStr) (v : Json) (hne : f ≠ k) :
    dGet (dSet o k v) f = dGet o f := by
  induction o with
  | nil =>
    simp only [dSet, dGet]
    rw [if_neg (fun h => hne h.symm)]
  | cons p rest ih =>
    rcases p with ⟨k', v'⟩
    by_cases hk : k' = k
    · simp only [dSet, if_pos hk, dGet]
      rw [if_neg (fun h => hne h.symm), hk, if_neg (fun h => hne h.symm)]
    · simp only [dSet, if_neg hk, dGet]
      by_cases hf : k' = f
      · rw [if_pos hf, if_pos hf]
      · rw [if_neg hf, if_neg hf, ih]

theorem exOk_iff {α : Type} (e : Except PyStr α) : exOk e = true ↔ ∃ a, e = .ok a := by
  cases e with
  | error e => simp [exOk]
  | ok a => simp [exOk]

theorem validateDays_error_at (pre post : List Json) (q : List (PyStr × Json))
    (hpre : ∀ p ∈ pre, ∃ po, p = Json.obj po ∧ dayMissing po = [])
    (hmiss : dayMissing q ≠ []) :
    validateDays (pre ++ Json.obj q :: post) =
      .error (S ("Missing required fields in day data: ") ++
        List.intercalate (S (", ")) (dayMissing q)) := by
  induction pre with
  | nil =>
    have hne : (dayMissing q).isEmpty = false := by
      simpa [List.isEmpty_iff] using hmiss
    simp only [List.nil_append, validateDays, hne, Bool.not_false, if_true]
  | cons p rest ih =>
    obtain ⟨po, rfl, hempty⟩ := hpre p (List.mem_cons_self _ _)
    simp only [List.cons_append, validateDays, hempty, List.isEmpty_nil, Bool.not_true,
      Bool.false_eq_true, if_false]
    exact ih (fun x hx => hpre x (List.mem_cons_of_mem _ hx))

/-- **C5.** For every parsed top-level object: when any of `trip_summary`,
`daily_itineraries`, `recommendations` is absent, validation (and hence
assembly) fails with a Missing-Fields error naming exactly the absent
fields; a present non-list or empty `daily_itineraries` also fails; and a
daily-plan entry missing any of `date`, `activities`, `meals`, `transport`,
`accommodation` fails with a Missing-Day-Fields error naming that entry's
absent fields (the first offending entry is reported); a validation error is
the assembly's error. -/
theorem validation_missing_fields (o : List (PyStr × Json)) :
    (topMissing o ≠ [] →
      validateItineraryData (.obj o) =
        .error (S ("Missing required fields in itinerary data: ") ++
          List.intercalate (S (", ")) (topMissing o))) ∧
    (topMissing o = [] →
      (∀ v, dGet o (S ("daily_itineraries")) = some v → (∀ xs, v ≠ .arr xs) →
        validateItineraryData (.obj o) = .error (S ("daily_itineraries must be a list"))) ∧
      (dGet o (S ("daily_itineraries")) = some (.arr []) →
        validateItineraryData (.obj o) = .error (S ("daily_itineraries cannot be empty"))) ∧
      (∀ pre post q,
        dGet o (S ("daily_itineraries")) = some (.arr (pre ++ Json.obj q :: post)) →
        (∀ p ∈ pre, ∃ po, p = Json.obj po ∧ dayMissing po = []) →
        dayMissing q ≠ [] →
        validateItineraryData (.obj o) =
          .error (S ("Missing required fields in day data: ") ++
            List.intercalate (S (", ")) (dayMissing q)))) ∧
    (∀ w e, validateItineraryData (.obj o) = .error e →
      parseItinerary (.obj o) w = .error e) := by
  refine ⟨?_, ?_, ?_⟩
  · intro hmiss
    have hne : (topMissing o).isEmpty = false := by
      simpa [List.isEmpty_iff] using hmiss
    simp only [validateItineraryData, hne, Bool.not_false, if_true]
  · intro htop
    have hemp : (topMissing o).isEmpty = true := by simp [htop]
    refine ⟨?_, ?_, ?_⟩
    · intro v hv hne
      simp only [validateItineraryData, hemp, Bool.not_true, Bool.false_eq_true, if_false, hv]
    · intro hv
      simp only [validateItineraryData, hemp, Bool.not_true, Bool.false_eq_true, if_false, hv,
        List.isEmpty_nil, if_true]
    · intro pre post q hv hpre hmiss
      simp only [validateItineraryData, hemp, Bool.not_true, Bool.false_eq_true, if_false, hv]
      have hdays : (pre ++ Json.obj q :: post).isEmpty = false := by
        cases pre with
        | nil => rfl
        | cons a b => rfl
      simp only [hdays, Bool.false_eq_true, if_false]
      exact validateDays_error_at pre post q hpre hmiss
  · intro w e hval
    simp only [parseItinerary, bind, Except.bind, hval]

theorem dGet_dSet_total_cost (o : List (PyStr × Json)) (v : Json) (f : PyStr)
    (hf : f ≠ S ("total_cost")) :
    dGet (dSet o (S ("total_cost")) v) f = dGet o f :=
  dGet_dSet_ne o (S ("total_cost")) f v hf

theorem validate_dSet_total_cost (o : List (PyStr × Json)) (v : Json) :
    validateItineraryData (.obj (dSet o (S ("total_cost")) v)) =
      validateItineraryData (.obj o) := by
  have hfil : topMissing (dSet o (S ("total_cost")) v) = topMissing o := by
    unfold topMissing
    refine List.filter_congr ?_
    intro f hf
    rw [dGet_dSet_total_cost]
    intro hEq
    rw [hEq] at hf
    simp [requiredTopFields, S] at hf
  simp only [validateItineraryData, hfil, dGet_dSet_total_cost o v (S ("daily_itineraries")) (by simp [S])]

/-- **C2.** For every successfully assembled itinerary, `total_cost` equals
the sum over the assembled daily plans of the four cost components
(activities + meals + transport + accommodation); components absent from the
input default to 0.0 (`estimatedCostsOfJson (.obj []) = .ok default`); and
the total reported in the parsed LLM data is never used: rewriting the
top-level `total_cost` field to any value does not change the assembly. -/
theorem assembler_total_cost (o : List (PyStr × Json)) (w : WeatherResponse) (v : Json) :
    (∀ resp, parseItinerary (.obj o) w = .ok resp →
      resp.total_cost = (resp.daily_itineraries.map dayCost).sum) ∧
    parseItinerary (.obj (dSet o (S ("total_cost")) v)) w = parseItinerary (.obj o) w ∧
    estimatedCostsOfJson (.obj []) = .ok {} := by
  refine ⟨?_, ?_, rfl⟩
  · intro resp h
    simp only [parseItinerary, bind, Except.bind] at h
    split at h
    · cases h
    · split at h
      · split at h
        · cases h
        · split at h
          · cases h
          · split at h
            · cases h
            · cases h
              rfl
      · cases h
  · simp only [parseItinerary, validate_dSet_total_cost,
      dGet_dSet_total_cost o v (S ("daily_itineraries")) (by simp [S]),
      dGet_dSet_total_cost o v (S ("trip_summary")) (by simp [S]),
      dGet_dSet_total_cost o v (S ("recommendations")) (by simp [S])]

/-- Witness for C2: on a concrete successful assembly, the recomputed total
equals the sum of the day costs (10 + 20.5 = 30.5), and the assembly does
succeed. -/
theorem assembler_total_cost_witness :
    (parseItinerary (.obj witnessTopC2) witnessWeather).map
        (fun r => r.total_cost) =
      (parseItinerary (.obj witnessTopC2) witnessWeather).map
        (fun r => (r.daily_itineraries.map dayCost).sum) ∧
    (parseItinerary (.obj witnessTopC2) witnessWeather).map
        (fun r => r.total_cost) = .ok ((61 : Rat)/2) := by
  constructor
  · cases hr : parseItinerary (.obj witnessTopC2) witnessWeather with
    | error e => rfl
    | ok r =>
      simp only [Except.map, (assembler_total_cost witnessTopC2 witnessWeather .null).1 r hr]
  · with_unfolding_all decide

/-- Witness for C5: dropping `recommendations` yields a Missing-Fields error
naming exactly `recommendations`. -/
theorem validation_missing_fields_witness :
    validateItineraryData (.obj [(S ("trip_summary"), witnessTripSummary),
      (S ("daily_itineraries"), .arr [witnessDay])]) =
      .error (S ("Missing required fields in itinerary data: recommendations")) := by
  have h := (validation_missing_fields [(S ("trip_summary"), witnessTripSummary),
    (S ("daily_itineraries"), .arr [witnessDay])]).1 (by decide)
  rw [h]
  decide

theorem buildWeatherInfo_ok (w : WeatherResponse) (dd : Json)
    (h : exOk (pydStr dd) = true) : exOk (buildWeatherInfo w dd) = true := by
  unfold buildWeatherInfo
  cases hf : w.weather_forecast.find? (fun x => jsonEqStr dd x.date) with
  | some wi => rfl
  | none =>
    obtain ⟨s, hs⟩ := (exOk_iff _).mp h
    simp [bind, Except.bind, hs, exOk]

/-- **C3 (counterexample).** A structurally valid daily-plan entry with a
route stop whose `latitude` is the non-numeric string "not-a-number" makes
the whole assembly fail (the `float()` coercion of step (ii) raises), so
step (ii) is not self-healing for present-but-malformed values, contrary to
the claim. -/
theorem route_coercion_fatal_counterexample :
    validateItineraryData (.obj [
      (S ("trip_summary"), witnessTripSummary),
      (S ("daily_itineraries"), .arr [.obj [
        (S ("date"), .str (S ("2025-02-01"))),
        (S ("activities"), .arr []),
        (S ("meals"), .arr []),
        (S ("transport"), .arr []),
        (S ("accommodation"), .obj []),
        (S ("daily_route"), .arr [.obj [(S ("latitude"), .str (S ("not-a-number")))]])]]),
      (S ("recommendations"), .arr [])]) = .ok () ∧
    parseItinerary (.obj [
      (S ("trip_summary"), witnessTripSummary),
      (S ("daily_itineraries"), .arr [.obj [
        (S ("date"), .str (S ("2025-02-01"))),
        (S ("activities"), .arr []),
        (S ("meals"), .arr []),
        (S ("transport"), .arr []),
        (S ("accommodation"), .obj []),
        (S ("daily_route"), .arr [.obj [(S ("latitude"), .str (S ("not-a-number")))]])]]),
      (S ("recommendations"), .arr [])]) witnessWeather =
      .error (S ("could not convert string to float: not-a-number")) := by
  constructor
  · decide
  · with_unfolding_all decide

/-- **C3 (amended).** For every daily-plan entry: given that the genuinely
fatal per-day steps succeed (date coercible; activities, meals, transport,
local events, estimated costs and weather summary build), the weather-lookup
step (i) and the accommodation step (iv) never fail the assembly — for any
weather data and any accommodation value — and route construction (ii)
completes the day exactly when its own coordinate coercion succeeds; a route
coercion error is fatal to the day (and hence to the whole assembly). -/
theorem assembly_self_healing_steps (w : WeatherResponse) (day : List (PyStr × Json))
    (hdate : exOk (pydStr ((dGet day (S ("date"))).getD .null)) = true)
    (hacts : exOk (buildActivities day) = true)
    (hmeals : exOk (buildMeals day) = true)
    (htrans : exOk (buildTransports day) = true)
    (hcosts : exOk (buildCosts day) = true)
    (hws : exOk (buildWeatherSummary day) = true)
    (hles : exOk (buildLocalEvents day) = true) :
    (exOk (buildDailyRoute day) = true → exOk (buildDay w (.obj day)) = true) ∧
    (∀ e, buildDailyRoute day = .error e → buildDay w (.obj day) = .error e) := by
  obtain ⟨wi, hwi⟩ := (exOk_iff _).mp (buildWeatherInfo_ok w _ hdate)
  obtain ⟨av, hav⟩ := (exOk_iff _).mp hacts
  obtain ⟨mv, hmv⟩ := (exOk_iff _).mp hmeals
  obtain ⟨tv, htv⟩ := (exOk_iff _).mp htrans
  obtain ⟨cv, hcv⟩ := (exOk_iff _).mp hcosts
  obtain ⟨wv, hwv⟩ := (exOk_iff _).mp hws
  obtain ⟨lv, hlv⟩ := (exOk_iff _).mp hles
  obtain ⟨dv, hdv⟩ := (exOk_iff _).mp hdate
  constructor
  · intro hroute
    obtain ⟨rv, hrv⟩ := (exOk_iff _).mp hroute
    simp [buildDay, bind, Except.bind, hwi, hrv, hav, hmv, htv, hcv, hwv, hlv, hdv, exOk]
  · intro e he
    simp [buildDay, bind, Except.bind, hwi, he, hav, hmv, htv, hcv, hwv, hlv, hdv]

/-- Witness for C3 (amended): a day whose accommodation is a plain string
(non-object) and whose date matches no forecast day still assembles — both
self-healing steps exercised — with no route data provided. -/
theorem assembly_self_healing_steps_witness :
    exOk (buildDay witnessWeather (.obj [
      (S ("date"), .str (S ("2031-01-01"))),
      (S ("activities"), .arr []),
      (S ("meals"), .arr []),
      (S ("transport"), .arr []),
      (S ("accommodation"), .str (S ("n/a")))])) = true :=
  (assembly_self_healing_steps witnessWeather [
      (S ("date"), .str (S ("2031-01-01"))),
      (S ("activities"), .arr []),
      (S ("meals"), .arr []),
      (S ("transport"), .arr []),
      (S ("accommodation"), .str (S ("n/a")))]
    (by decide) (by decide) (by decide) (by decide) (by decide) (by decide)
    (by decide)).1 (by with_unfolding_all decide)

/-- **C10.** The "No data" defaults apply only when a daily-plan entry omits
the `weather_summary` key; a present value that is not an object, or an
object missing `description` or `recommendations`, makes the day's
weather-summary construction fail, and (given the preceding per-day steps
succeed) that failure is the whole day's failure — fatal to the assembly,
not self-healed. -/
theorem weather_summary_defaults (day : List (PyStr × Json)) :
    (dGet day (S ("weather_summary")) = none →
      buildWeatherSummary day = .ok ⟨S ("No data"), S ("No data")⟩) ∧
    (∀ o, dGet day (S ("weather_summary")) = some (.obj o) →
      dGet o (S ("description")) = none →
      buildWeatherSummary day = .error (S ("description: field required"))) ∧
    (∀ o s v, dGet day (S ("weather_summary")) = some (.obj o) →
      dGet o (S ("description")) = some v → pydStr v = .ok s →
      dGet o (S ("recommendations")) = none →
      buildWeatherSummary day = .error (S ("recommendations: field required"))) ∧
    (∀ v, dGet day (S ("weather_summary")) = some v → (∀ o, v ≠ .obj o) →
      buildWeatherSummary day = .error (S ("WeatherSummary() argument must be a mapping"))) ∧
    (∀ w e, exOk (pydStr ((dGet day (S ("date"))).getD .null)) = true →
      exOk (buildDailyRoute day) = true → exOk (buildActivities day) = true →
      exOk (buildMeals day) = true → exOk (buildTransports day) = true →
      exOk (buildCosts day) = true →
      buildWeatherSummary day = .error e → buildDay w (.obj day) = .error e) := by
  refine ⟨?_, ?_, ?_, ?_, ?_⟩
  · intro h
    simp only [buildWeatherSummary, h, Option.getD_none]
    rfl
  · intro o h hd
    simp only [buildWeatherSummary, h, Option.getD_some, weatherSummaryOfJson, hd]
    rfl
  · intro o s v h hd hs hr
    simp only [buildWeatherSummary, h, Option.getD_some, weatherSummaryOfJson, hd, hs, hr,
      bind, Except.bind]
  · intro v h hne
    simp only [buildWeatherSummary, h, Option.getD_some]
    cases v
    case obj o => exact absurd rfl (hne o)
    all_goals rfl
  · intro w e hdate hroute hacts hmeals htrans hcosts he
    obtain ⟨wi, hwi⟩ := (exOk_iff _).mp (buildWeatherInfo_ok w _ hdate)
    obtain ⟨rv, hrv⟩ := (exOk_iff _).mp hroute
    obtain ⟨av, hav⟩ := (exOk_iff _).mp hacts
    obtain ⟨mv, hmv⟩ := (exOk_iff _).mp hmeals
    obtain ⟨tv, htv⟩ := (exOk_iff _).mp htrans
    obtain ⟨cv, hcv⟩ := (exOk_iff _).mp hcosts
    simp [buildDay, bind, Except.bind, hwi, hrv, hav, hmv, htv, hcv, he]

/-- Witness for C10: an absent key heals to "No data"/"No data"; a present
object lacking `description` is an error that fails the whole day. -/
theorem weather_summary_defaults_witness :
    buildWeatherSummary [(S ("date"), .str (S ("2025-02-01")))] =
      .ok ⟨S ("No data"), S ("No data")⟩ ∧
    buildDay witnessWeather (.obj [
      (S ("date"), .str (S ("2025-02-01"))),
      (S ("activities"), .arr []),
      (S ("meals"), .arr []),
      (S ("transport"), .arr []),
      (S ("accommodation"), .obj []),
      (S ("weather_summary"), .obj [(S ("recommendations"), .str (S ("bring socks")))])]) =
      .error (S ("description: field required")) := by
  constructor
  · exact (weather_summary_defaults [(S ("date"), .str (S ("2025-02-01")))]).1 (by rfl)
  · exact (weather_summary_defaults [
      (S ("date"), .str (S ("2025-02-01"))),
      (S ("activities"), .arr []),
      (S ("meals"), .arr []),
      (S ("transport"), .arr []),
      (S ("accommodation"), .obj []),
      (S ("weather_summary"), .obj [(S ("recommendations"), .str (S ("bring socks")))])]).2.2.2.2
      witnessWeather (S ("description: field required"))
      (by decide) (by with_unfolding_all decide) (by decide) (by decide) (by decide)
      (by with_unfolding_all decide)
      ((weather_summary_defaults [
        (S ("date"), .str (S ("2025-02-01"))),
        (S ("activities"), .arr []),
        (S ("meals"), .arr []),
        (S ("transport"), .arr []),
        (S ("accommodation"), .obj []),
        (S ("weather_summary"), .obj [(S ("recommendations"), .str (S ("bring socks")))])]).2.1
        [(S ("recommendations"), .str (S ("bring socks")))] (by rfl) (by rfl))

theorem getLast?_mem_self {α : Type} (l : List α) (d : α) (h : l.getLast? = some d) :
    d ∈ l := by
  have hx : d ∈ l.getLast? := by rw [h]; rfl
  obtain ⟨hne, rfl⟩ := List.mem_getLast?_eq_getLast hx
  exact List.getLast_mem hne

theorem dropWhile_append_all {α : Type} (p : α → Bool) (a b : List α)
    (h : ∀ x ∈ a, p x = true) : (a ++ b).dropWhile p = b.dropWhile p := by
  induction a with
  | nil => rfl
  | cons c t ih =>
    simp only [List.cons_append, List.dropWhile_cons, h c (List.mem_cons_self _ _), if_true]
    exact ih (fun x hx => h x (List.mem_cons_of_mem _ hx))

theorem dropWhile_cons_neg {α : Type} (p : α → Bool) (c : α) (l : List α)
    (h : p c = false) : (c :: l).dropWhile p = c :: l := by
  simp [List.dropWhile_cons, h]

theorem jsonWs_le_pyWs (c : Char) (h : jsonWs c = true) : pyWs c = true := by
  simp only [jsonWs, Bool.or_eq_true, beq_iff_eq] at h
  rcases h with ((rfl | rfl) | rfl) | rfl <;> rfl

theorem dropWhile_shape {α : Type} (p : α → Bool) (l : List α) :
    l = l.takeWhile p ++ l.dropWhile p ∧ ∀ x ∈ l.takeWhile p, p x = true :=
  ⟨(List.takeWhile_append_dropWhile p l).symm, fun _ hx => List.mem_takeWhile_imp hx⟩

theorem pyWs_not_dispatch (c : Char) (h : pyWs c = true) :
    c ≠ '"' ∧ c ≠ '{' ∧ c ≠ '[' ∧ c ≠ 't' ∧ c ≠ 'f' ∧ c ≠ 'n' ∧ c ≠ '-' ∧ c.isDigit = false := by
  simp only [pyWs, Bool.or_eq_true, beq_iff_eq] at h
  rcases h with ((((rfl | rfl) | rfl) | rfl) | rfl) | rfl <;> exact ⟨by decide, by decide,
    by decide, by decide, by decide, by decide, by decide, by decide⟩

/-- A successful value parse starts at a non-whitespace character. -/
theorem parseJsonValue_head (fuel : Nat) (c : Char) (cs : PyStr) (v : Json) (r : PyStr)
    (h : parseJsonValue fuel (c :: cs) = some (v, r)) : pyWs c = false := by
  by_contra hws
  have hws' : pyWs c = true := by
    cases hc : pyWs c with
    | false => exact absurd hc hws
    | true => rfl
  obtain ⟨h1, h2, h3, h4, h5, h6, h7, h8⟩ := pyWs_not_dispatch c hws'
  cases fuel with
  | zero => cases h
  | succ fuel =>
    simp only [parseJsonValue, if_neg h1, if_neg h2, if_neg h3, if_neg h4, if_neg h5,
      if_neg h6] at h
    rw [if_neg] at h
    · cases h
    · rintro (rfl | hd)
      · exact h7 rfl
      · rw [h8] at hd
        cases hd

theorem parseJsonString_shape (n : Nat) : ∀ (l s r : PyStr), l.length ≤ n →
    parseJsonString l = some (s, r) → ∃ b, l = b ++ '"' :: r := by
  induction n with
  | zero =>
    intro l s r hl h
    cases l with
    | nil => cases h
    | cons c rest => simp at hl
  | succ n ih =>
    intro l s r hl h
    rw [parseJsonString.eq_def] at h
    split at h
    · cases h
    · cases h
      exact ⟨[], rfl⟩
    · rename_i e rest
      split at h
      · rename_i he
        split at h
        · rename_i a b c2 d rest2
          split at h
          · rename_i va vb vc vd ha hb hc2 hd
            rcases Option.map_eq_some'.mp h with ⟨⟨s2, r2⟩, hrec, hfr⟩
            simp only at hfr
            injection hfr with hs hr
            obtain rfl := hr
            obtain ⟨b2, hb2⟩ := ih rest2 s2 r2 (by simp at hl ⊢; omega) hrec
            subst he
            exact ⟨'\\' :: 'u' :: a :: b :: c2 :: d :: b2, by simp [hb2]⟩
          · cases h
        · cases h
      · split at h
        · rename_i ch hch
          rcases Option.map_eq_some'.mp h with ⟨⟨s2, r2⟩, hrec, hfr⟩
          simp only at hfr
          injection hfr with hs hr
          obtain rfl := hr
          obtain ⟨b2, hb2⟩ := ih rest s2 r2 (by simp at hl ⊢; omega) hrec
          exact ⟨'\\' :: e :: b2, by simp [hb2]⟩
        · cases h
    · rename_i c rest h1 h2
      split at h
      · cases h
      · rcases Option.map_eq_some'.mp h with ⟨⟨s2, r2⟩, hrec, hfr⟩
        simp only at hfr
        injection hfr with hs hr
        obtain rfl := hr
        obtain ⟨b2, hb2⟩ := ih rest s2 r2 (by simp at hl ⊢; omega) hrec
        exact ⟨c :: b2, by simp [hb2]⟩

theorem isDigit_not_pyWs (c : Char) (h : c.isDigit = true) : pyWs c = false := by
  cases hw : pyWs c with
  | false => rfl
  | true =>
    simp only [pyWs, Bool.or_eq_true, beq_iff_eq] at hw
    rcases hw with ((((rfl | rfl) | rfl) | rfl) | rfl) | rfl <;> cases h

theorem lexSign_shape (l : PyStr) :
    l = (if (lexSign l).1 then ['-'] else []) ++ (lexSign l).2 := by
  cases l with
  | nil => rfl
  | cons c rest =>
    by_cases hc : c = '-'
    · subst hc
      rfl
    · have hred : lexSign (c :: rest) = (false, c :: rest) := by
        rw [lexSign.eq_def]
        split
        · rename_i r heq
          injection heq with h1 h2
          exact absurd h1 hc
        · rfl
      rw [hred]
      simp

theorem lexIp_shape (c : Char) (rest : PyStr) (hd : c.isDigit = true) :
    c :: rest = (lexIp c rest).1 ++ (lexIp c rest).2 ∧ (lexIp c rest).1 ≠ [] ∧
      ∀ x ∈ (lexIp c rest).1, x.isDigit = true := by
  unfold lexIp
  by_cases hc : c = '0'
  · subst hc
    rw [if_pos rfl]
    refine ⟨rfl, by simp, ?_⟩
    intro x hx
    simp only [List.mem_singleton] at hx
    subst hx
    rfl
  · rw [if_neg hc]
    refine ⟨(List.takeWhile_append_dropWhile _ _).symm, ?_, fun x hx => List.mem_takeWhile_imp hx⟩
    simp only [List.takeWhile]
    rw [hd]
    simp

theorem lexFrac_shape (r : PyStr) :
    ((lexFrac r).1 = [] ∧ (lexFrac r).2 = r) ∨
    ((lexFrac r).1 ≠ [] ∧ r = '.' :: ((lexFrac r).1 ++ (lexFrac r).2) ∧
      ∀ x ∈ (lexFrac r).1, x.isDigit = true) := by
  rw [lexFrac.eq_def]
  split
  · rename_i rr
    by_cases hds : (rr.takeWhile Char.isDigit).isEmpty
    · simp [hds]
    · simp only [hds, Bool.false_eq_true, if_false]
      refine Or.inr ⟨by simpa [List.isEmpty_iff] using hds, ?_,
        fun x hx => List.mem_takeWhile_imp hx⟩
      simp [List.takeWhile_append_dropWhile]
  · exact Or.inl ⟨rfl, rfl⟩

theorem takeWhile_digit_last (q : PyStr) (d : Char)
    (h : (q.takeWhile Char.isDigit).getLast? = some d) : d.isDigit = true :=
  List.mem_takeWhile_imp (getLast?_mem_self _ d h)

theorem lexExp_cons_shape (e : Char) (rr sgnChars q : PyStr) (v : Int)
    (hred : lexExp (e :: rr) = (some v, q.dropWhile Char.isDigit))
    (hsgn : rr = sgnChars ++ q)
    (hq : ¬ (q.takeWhile Char.isDigit).isEmpty = true) :
    ∃ cs, e :: rr = cs ++ (lexExp (e :: rr)).2 ∧ cs ≠ [] ∧
      ∀ d, cs.getLast? = some d → d.isDigit = true := by
  refine ⟨e :: sgnChars ++ q.takeWhile Char.isDigit, ?_, by simp, ?_⟩
  · rw [hred, hsgn]
    simp [List.append_assoc, List.takeWhile_append_dropWhile]
  · intro d hd
    have hne : q.takeWhile Char.isDigit ≠ [] := by
      simpa [List.isEmpty_iff] using hq
    rw [show e :: sgnChars ++ q.takeWhile Char.isDigit =
      (e :: sgnChars) ++ q.takeWhile Char.isDigit from rfl, List.getLast?_append] at hd
    cases hlast : (q.takeWhile Char.isDigit).getLast? with
    | none => exact absurd hlast (by simpa [List.getLast?_eq_none] using hne)
    | some d2 =>
      rw [hlast] at hd
      simp only [Option.or_some] at hd
      cases hd
      exact takeWhile_digit_last q d hlast

theorem lexExp_shape (r : PyStr) :
    ((lexExp r).1 = none ∧ (lexExp r).2 = r) ∨
    (∃ cs, r = cs ++ (lexExp r).2 ∧ cs ≠ [] ∧
      ∀ d, cs.getLast? = some d → d.isDigit = true) := by
  cases r with
  | nil => exact Or.inl ⟨rfl, rfl⟩
  | cons e rr =>
    by_cases he : e = 'e' ∨ e = 'E'
    · cases rr with
      | nil =>
        refine Or.inl ?_
        constructor
        · simp [lexExp, he]
        · simp [lexExp, he]
      | cons c0 q2 =>
        by_cases hp : c0 = '+'
        · subst hp
          by_cases hq : (q2.takeWhile Char.isDigit).isEmpty = true
          · refine Or.inl ?_
            constructor
            · simp [lexExp, he, hq]
            · simp [lexExp, he, hq]
          · refine Or.inr (lexExp_cons_shape e ('+' :: q2) ['+'] q2 (digitsToNat (q2.takeWhile Char.isDigit) : Int) ?_ rfl hq)
            simp [lexExp, he, hq]
        · by_cases hm : c0 = '-'
          · subst hm
            by_cases hq : (q2.takeWhile Char.isDigit).isEmpty = true
            · refine Or.inl ?_
              constructor
              · simp [lexExp, he, hq]
              · simp [lexExp, he, hq]
            · refine Or.inr (lexExp_cons_shape e ('-' :: q2) ['-'] q2 (-(digitsToNat (q2.takeWhile Char.isDigit) : Int)) ?_ rfl hq)
              simp [lexExp, he, hq]
          · by_cases hq : ((c0 :: q2).takeWhile Char.isDigit).isEmpty = true
            · refine Or.inl ?_
              constructor
              · simp [lexExp, he, hp, hm, hq]
              · simp [lexExp, he, hp, hm, hq]
            · refine Or.inr (lexExp_cons_shape e (c0 :: q2) [] (c0 :: q2) (digitsToNat ((c0 :: q2).takeWhile Char.isDigit) : Int) ?_ rfl hq)
              simp [lexExp, he, hp, hm, hq]
    · refine Or.inl ?_
      constructor
      · simp [lexExp, he]
      · simp [lexExp, he]

theorem getLast?_append_right {α : Type} (X Y : List α) (hY : Y ≠ []) (d : α)
    (h : (X ++ Y).getLast? = some d) : Y.getLast? = some d := by
  rw [List.getLast?_append] at h
  cases hl : Y.getLast? with
  | none => exact absurd hl (by simpa [List.getLast?_eq_none_iff] using hY)
  | some d2 =>
    rw [hl] at h
    simp only [Option.or_some] at h
    exact h

theorem parseJsonNumberCore_shape (neg : Bool) (l1 : PyStr) (v : Json) (r : PyStr)
    (h : parseJsonNumberCore neg l1 = some (v, r)) :
    ∃ cs, l1 = cs ++ r ∧ cs ≠ [] ∧ ∀ d, cs.getLast? = some d → pyWs d = false := by
  cases l1 with
  | nil => cases h
  | cons c rest =>
    by_cases hd : c.isDigit = true
    · rw [parseJsonNumberCore.eq_def] at h
      simp only [hd, Bool.not_true, Bool.false_eq_true, if_false] at h
      obtain ⟨hip_eq, hip_ne, hip_dig⟩ := lexIp_shape c rest hd
      split at h
      · rename_i hcond
        injection h with h'
        injection h' with hv hr
        refine ⟨(lexIp c rest).1, by rw [← hr]; exact hip_eq, hip_ne, ?_⟩
        intro d hdl
        exact isDigit_not_pyWs d (hip_dig d (getLast?_mem_self _ d hdl))
      · rename_i hcond
        injection h with h'
        injection h' with hv hr
        rcases lexFrac_shape (lexIp c rest).2 with ⟨hf1, hf2⟩ | ⟨hfne, hfeq, hfdig⟩
        · rcases lexExp_shape (lexFrac (lexIp c rest).2).2 with ⟨he1, he2⟩ | ⟨cs2, hceq, hcne, hclast⟩
          · exact absurd (by simp [hf1, he1]) hcond
          · refine ⟨(lexIp c rest).1 ++ cs2, ?_, by simp [hip_ne], ?_⟩
            · rw [← hr, List.append_assoc, ← hceq, hf2]
              exact hip_eq
            · intro d hdl
              exact isDigit_not_pyWs d
                (hclast d (getLast?_append_right _ cs2 hcne d hdl))
        · rcases lexExp_shape (lexFrac (lexIp c rest).2).2 with ⟨he1, he2⟩ | ⟨cs2, hceq, hcne, hclast⟩
          · refine ⟨(lexIp c rest).1 ++ '.' :: (lexFrac (lexIp c rest).2).1, ?_, by simp, ?_⟩
            · rw [← hr, he2]
              conv_lhs => rw [hip_eq, hfeq]
              simp [List.append_assoc]
            · intro d hdl
              have : ('.' :: (lexFrac (lexIp c rest).2).1).getLast? = some d :=
                getLast?_append_right _ _ (by simp) d hdl
              have hmem := getLast?_mem_self _ d this
              rcases List.mem_cons.mp hmem with rfl | hmem'
              · exact absurd this (by
                  rw [show ('.' :: (lexFrac (lexIp c rest).2).1) =
                    ['.'] ++ (lexFrac (lexIp c rest).2).1 from rfl]
                  intro hcontra
                  have := getLast?_append_right ['.'] _ hfne _ hcontra
                  have hdig := hfdig _ (getLast?_mem_self _ _ this)
                  cases hdig)
              · exact isDigit_not_pyWs d (hfdig d hmem')
          · refine ⟨(lexIp c rest).1 ++ '.' :: ((lexFrac (lexIp c rest).2).1 ++ cs2), ?_, by simp, ?_⟩
            · rw [← hr]
              conv_lhs => rw [hip_eq, hfeq]
              conv_lhs => rw [hceq]
              simp [List.append_assoc]
            · intro d hdl
              have h1 : ('.' :: ((lexFrac (lexIp c rest).2).1 ++ cs2)).getLast? = some d :=
                getLast?_append_right _ _ (by simp) d hdl
              have h2 : (('.' :: (lexFrac (lexIp c rest).2).1) ++ cs2).getLast? = some d := by
                simpa using h1
              exact isDigit_not_pyWs d (hclast d (getLast?_append_right _ cs2 hcne d h2))
    · rw [parseJsonNumberCore.eq_def] at h
      have hd' : c.isDigit = false := by
        cases hc : c.isDigit with
        | false => rfl
        | true => exact absurd hc hd
      simp only [hd', Bool.not_false, if_true] at h
      cases h

theorem parseJsonNumber_shape (l : PyStr) (v : Json) (r : PyStr)
    (h : parseJsonNumber l = some (v, r)) :
    ∃ cs, l = cs ++ r ∧ cs ≠ [] ∧ ∀ d, cs.getLast? = some d → pyWs d = false := by
  obtain ⟨cs, hcs, hne, hlast⟩ := parseJsonNumberCore_shape (lexSign l).1 (lexSign l).2 v r h
  refine ⟨(if (lexSign l).1 then ['-'] else []) ++ cs, ?_, by simp [hne], ?_⟩
  · conv_lhs => rw [lexSign_shape l]
    rw [hcs, List.append_assoc]
  · intro d hdl
    exact hlast d (getLast?_append_right _ cs hne d hdl)

theorem dropWhile_decomp (p : Char → Bool) (l x : PyStr) (h : l.dropWhile p = x) :
    l = l.takeWhile p ++ x := by
  rw [← h, List.takeWhile_append_dropWhile]

theorem parseJsonMembers_nil (fuel : Nat) (acc : List (PyStr × Json)) :
    parseJsonMembers fuel [] acc = none := by
  cases fuel with
  | zero => rfl
  | succ fuel => rfl

/-- Consumed-shape lemma for the fueled JSON parser: a successful parse
consumes a nonempty prefix that ends in a non-whitespace character (objects
and arrays end at their closing bracket). -/
theorem parseJson_shape (fuel : Nat) :
    (∀ l v r, parseJsonValue fuel l = some (v, r) →
      ∃ cs, l = cs ++ r ∧ cs ≠ [] ∧ ∀ d, cs.getLast? = some d → pyWs d = false) ∧
    (∀ l acc v r, parseJsonMembers fuel l acc = some (v, r) →
      ∃ b, l = b ++ '}' :: r) ∧
    (∀ l acc v r, parseJsonElements fuel l acc = some (v, r) →
      ∃ b, l = b ++ ']' :: r) := by
  induction fuel with
  | zero =>
    refine ⟨?_, ?_, ?_⟩
    · intro l v r h
      cases h
    · intro l acc v r h
      cases h
    · intro l acc v r h
      cases h
  | succ fuel ih =>
    refine ⟨?_, ?_, ?_⟩
    · intro l v r h
      cases l with
      | nil => cases h
      | cons c rest =>
        simp only [parseJsonValue] at h
        split at h
        · rename_i hc
          rcases Option.map_eq_some'.mp h with ⟨⟨s2, r2⟩, hps, hfr⟩
          simp only at hfr
          injection hfr with hv hr
          obtain rfl := hr
          obtain ⟨b, hb⟩ := parseJsonString_shape rest.length rest s2 r2 le_rfl hps
          subst hc
          refine ⟨'"' :: b ++ ['"'], ?_, by simp, ?_⟩
          · rw [hb]
            simp
          · intro d hd
            rw [show ('"' :: b ++ ['"'] : PyStr) = ('"' :: b) ++ ['"'] from by simp,
              List.getLast?_concat] at hd
            injection hd with hd'
            rw [← hd']
            rfl
        · split at h
          · rename_i hc1 hc2
            subst hc2
            split at h
            · rename_i r0 hdw
              injection h with h'
              injection h' with hv hr
              refine ⟨'{' :: rest.takeWhile jsonWs ++ ['}'], ?_, by simp, ?_⟩
              · have := dropWhile_decomp jsonWs rest _ hdw
                rw [← hr]
                rw [show ('{' :: rest.takeWhile jsonWs ++ ['}'] : PyStr) ++ r0 =
                  '{' :: (rest.takeWhile jsonWs ++ '}' :: r0) from by simp, ← this]
              · intro d hd
                rw [show ('{' :: rest.takeWhile jsonWs ++ ['}'] : PyStr) =
                  ('{' :: rest.takeWhile jsonWs) ++ ['}'] from by simp,
                  List.getLast?_concat] at hd
                injection hd with hd'
                rw [← hd']
                rfl
            · obtain ⟨b2, hb2⟩ := ih.2.1 _ [] v r h
              refine ⟨'{' :: rest.takeWhile jsonWs ++ b2 ++ ['}'], ?_, by simp, ?_⟩
              · have hres := dropWhile_decomp jsonWs rest _ rfl
                rw [show ('{' :: rest.takeWhile jsonWs ++ b2 ++ ['}'] : PyStr) ++ r =
                  '{' :: (rest.takeWhile jsonWs ++ (b2 ++ '}' :: r)) from by simp, ← hb2, ← hres]
              · intro d hd
                rw [show ('{' :: rest.takeWhile jsonWs ++ b2 ++ ['}'] : PyStr) =
                  ('{' :: rest.takeWhile jsonWs ++ b2) ++ ['}'] from by simp,
                  List.getLast?_concat] at hd
                injection hd with hd'
                rw [← hd']
                rfl
          · split at h
            · rename_i hc1 hc2 hc3
              subst hc3
              split at h
              · rename_i r0 hdw
                injection h with h'
                injection h' with hv hr
                refine ⟨'[' :: rest.takeWhile jsonWs ++ [']'], ?_, by simp, ?_⟩
                · have := dropWhile_decomp jsonWs rest _ hdw
                  rw [← hr]
                  rw [show ('[' :: rest.takeWhile jsonWs ++ [']'] : PyStr) ++ r0 =
                    '[' :: (rest.takeWhile jsonWs ++ ']' :: r0) from by simp, ← this]
                · intro d hd
                  rw [show ('[' :: rest.takeWhile jsonWs ++ [']'] : PyStr) =
                    ('[' :: rest.takeWhile jsonWs) ++ [']'] from by simp,
                    List.getLast?_concat] at hd
                  injection hd with hd'
                  rw [← hd']
                  rfl
              · obtain ⟨b2, hb2⟩ := ih.2.2 _ [] v r h
                refine ⟨'[' :: rest.takeWhile jsonWs ++ b2 ++ [']'], ?_, by simp, ?_⟩
                · have hres := dropWhile_decomp jsonWs rest _ rfl
                  rw [show ('[' :: rest.takeWhile jsonWs ++ b2 ++ [']'] : PyStr) ++ r =
                    '[' :: (rest.takeWhile jsonWs ++ (b2 ++ ']' :: r)) from by simp, ← hb2, ← hres]
                · intro d hd
                  rw [show ('[' :: rest.takeWhile jsonWs ++ b2 ++ [']'] : PyStr) =
                    ('[' :: rest.takeWhile jsonWs ++ b2) ++ [']'] from by simp,
                    List.getLast?_concat] at hd
                  injection hd with hd'
                  rw [← hd']
                  rfl
            · split at h
              · rename_i hc1 hc2 hc3 hc4
                subst hc4
                split at h
                · rename_i hpre
                  injection h with h'
                  injection h' with hv hr
                  obtain ⟨t, ht⟩ := List.isPrefixOf_iff_prefix.mp hpre
                  refine ⟨S ("true"), ?_, by simp [S], ?_⟩
                  · rw [← hr, ← ht]
                    simp [S]
                  · intro d hd
                    simp [S] at hd
                    rw [← hd]
                    rfl
                · cases h
              · split at h
                · rename_i hc1 hc2 hc3 hc4 hc5
                  subst hc5
                  split at h
                  · rename_i hpre
                    injection h with h'
                    injection h' with hv hr
                    obtain ⟨t, ht⟩ := List.isPrefixOf_iff_prefix.mp hpre
                    refine ⟨S ("false"), ?_, by simp [S], ?_⟩
                    · rw [← hr, ← ht]
                      simp [S]
                    · intro d hd
                      simp [S] at hd
                      rw [← hd]
                      rfl
                  · cases h
                · split at h
                  · rename_i hc1 hc2 hc3 hc4 hc5 hc6
                    subst hc6
                    split at h
                    · rename_i hpre
                      injection h with h'
                      injection h' with hv hr
                      obtain ⟨t, ht⟩ := List.isPrefixOf_iff_prefix.mp hpre
                      refine ⟨S ("null"), ?_, by simp [S], ?_⟩
                      · rw [← hr, ← ht]
                        simp [S]
                      · intro d hd
                        simp [S] at hd
                        rw [← hd]
                        rfl
                    · cases h
                  · split at h
                    · exact parseJsonNumber_shape _ v r h
                    · cases h
    · intro l acc v r h
      cases l with
      | nil =>
        rw [parseJsonMembers_nil] at h
        cases h
      | cons c0 rest0 =>
        simp only [parseJsonMembers] at h
        split at h
        · rename_i rest heq
          injection heq with heqc heqr
          subst heqc heqr
          split at h
          · cases h
          · rename_i k r1 hps
            obtain ⟨bs, hbs⟩ := parseJsonString_shape rest0.length rest0 k r1 le_rfl hps
            split at h
            · rename_i r3 hdw1
              split at h
              · cases h
              · rename_i v2 r5 hpv
                obtain ⟨cs4, hcs4, hcs4ne, hcs4last⟩ := ih.1 _ v2 r5 hpv
                split at h
                · rename_i r7 hdw3
                  obtain ⟨b2, hb2⟩ := ih.2.1 _ (dSet acc k v2) v r h
                  refine ⟨'"' :: bs ++ '"' :: (r1.takeWhile jsonWs) ++ ':' ::
                    (r3.takeWhile jsonWs) ++ cs4 ++ (r5.takeWhile jsonWs) ++ ',' ::
                    (r7.takeWhile jsonWs) ++ b2, ?_⟩
                  have h1 := dropWhile_decomp jsonWs r1 _ hdw1
                  have h2 := dropWhile_decomp jsonWs r3 _ rfl
                  have h3 := dropWhile_decomp jsonWs r5 _ hdw3
                  have h4 := dropWhile_decomp jsonWs r7 _ rfl
                  conv_lhs => rw [hbs, h1, h2, hcs4, h3, h4, hb2]
                  simp
                · rename_i r7 hdw3
                  injection h with h'
                  injection h' with hv hr
                  refine ⟨'"' :: bs ++ '"' :: (r1.takeWhile jsonWs) ++ ':' ::
                    (r3.takeWhile jsonWs) ++ cs4 ++ (r5.takeWhile jsonWs), ?_⟩
                  have h1 := dropWhile_decomp jsonWs r1 _ hdw1
                  have h3 := dropWhile_decomp jsonWs r5 _ hdw3
                  have h2 := dropWhile_decomp jsonWs r3 _ rfl
                  rw [← hr]
                  conv_lhs => rw [hbs, h1, h2, hcs4, h3]
                  simp
                · cases h
            · cases h
        · cases h
    · intro l acc v r h
      simp only [parseJsonElements] at h
      split at h
      · cases h
      · rename_i v2 r1 hpv
        obtain ⟨cs1, hcs1, hcs1ne, hcs1last⟩ := ih.1 l v2 r1 hpv
        split at h
        · rename_i r3 hdw
          obtain ⟨b2, hb2⟩ := ih.2.2 _ (acc ++ [v2]) v r h
          refine ⟨cs1 ++ (r1.takeWhile jsonWs) ++ ',' :: (r3.takeWhile jsonWs) ++ b2, ?_⟩
          have h1 := dropWhile_decomp jsonWs r1 _ hdw
          have h2 := dropWhile_decomp jsonWs r3 _ rfl
          conv_lhs => rw [hcs1, h1, h2, hb2]
          simp
        · rename_i r3 hdw
          injection h with h'
          injection h' with hv hr
          refine ⟨cs1 ++ (r1.takeWhile jsonWs), ?_⟩
          have h1 := dropWhile_decomp jsonWs r1 _ hdw
          rw [← hr]
          conv_lhs => rw [hcs1, h1]
          simp
        · cases h

theorem splitFirst_decomp (m : PyStr) : ∀ (l a b : PyStr), splitFirst m l = some (a, b) →
    l = a ++ m ++ b := by
  intro l
  induction l with
  | nil => intro a b h; cases h
  | cons c rest ih =>
    intro a b h
    simp only [splitFirst] at h
    split at h
    · rename_i hpre
      injection h with h'
      injection h' with ha hb
      obtain ⟨t, ht⟩ := List.isPrefixOf_iff_prefix.mp hpre
      subst ha
      rw [← hb, ← ht]
      simp
    · rename_i hpre
      split at h
      · rename_i a2 b2 hrec
        injection h with h'
        injection h' with ha hb
        subst hb
        rw [← ha]
        simp [ih a2 b2 hrec]
      · cases h

theorem pyIn_false_splitFirst (m l : PyStr) (h : pyIn m l = false) :
    splitFirst m l = none := by
  cases hs : splitFirst m l with
  | none => rfl
  | some p =>
    rcases p with ⟨a, b⟩
    have hinf : m <:+: l := ⟨a, b, by rw [splitFirst_decomp m l a b hs]⟩
    rw [pyIn, decide_eq_false_iff_not] at h
    exact absurd hinf h

theorem extractFence_noMarker (l : PyStr) (h : pyIn (S ("```json")) l = false) :
    extractFence l = l := by
  unfold extractFence
  rw [pyIn_false_splitFirst _ _ h]

theorem pyJsonLoads_pyStrip (l : PyStr) (d : Json) (h : pyJsonLoads l = some d) :
    pyJsonLoads (pyStrip l) = some d := by
  simp only [pyJsonLoads] at h
  split at h
  case h_2 => cases h
  case h_1 v hsucc =>
    injection h with hv
    obtain ⟨cs, hcs, hcne0, hlast0⟩ :=
      (parseJson_shape (2 * (jsonTrim l).length + 2)).1 _ v [] hsucc
    rw [List.append_nil] at hcs
    have hcne : jsonTrim l ≠ [] := by
      rw [hcs]
      exact hcne0
    have hlast : ∀ d', (jsonTrim l).getLast? = some d' → pyWs d' = false := by
      rw [hcs]
      exact hlast0
    obtain ⟨c0, cs', hc0⟩ : ∃ c0 cs', jsonTrim l = c0 :: cs' := by
      cases hj : jsonTrim l with
      | nil => exact absurd hj hcne
      | cons x xs => exact ⟨x, xs, rfl⟩
    have hheadws : pyWs c0 = false := by
      rw [hc0] at hsucc
      exact parseJsonValue_head _ c0 cs' v [] hsucc
    have hheadjs : jsonWs c0 = false := by
      cases hjw : jsonWs c0 with
      | false => rfl
      | true => rw [jsonWs_le_pyWs c0 hjw] at hheadws; cases hheadws
    -- decompose l around the trimmed core
    have hm : l = l.takeWhile jsonWs ++ l.dropWhile jsonWs :=
      (List.takeWhile_append_dropWhile _ _).symm
    have hmc : l.dropWhile jsonWs =
        jsonTrim l ++ ((l.dropWhile jsonWs).reverse.takeWhile jsonWs).reverse := by
      conv_lhs => rw [← List.reverse_reverse (l.dropWhile jsonWs)]
      conv_lhs => rw [(List.takeWhile_append_dropWhile jsonWs (l.dropWhile jsonWs).reverse).symm]
      rw [List.reverse_append]
      rfl
    have hbws : ∀ x ∈ ((l.dropWhile jsonWs).reverse.takeWhile jsonWs).reverse, pyWs x = true := by
      intro x hx
      rw [List.mem_reverse] at hx
      exact jsonWs_le_pyWs x (List.mem_takeWhile_imp hx)
    have haws : ∀ x ∈ l.takeWhile jsonWs, pyWs x = true := by
      intro x hx
      exact jsonWs_le_pyWs x (List.mem_takeWhile_imp hx)
    have hA : l.dropWhile pyWs =
        jsonTrim l ++ ((l.dropWhile jsonWs).reverse.takeWhile jsonWs).reverse := by
      conv_lhs => rw [hm]
      rw [dropWhile_append_all pyWs _ _ haws]
      conv_lhs => rw [hmc]
      rw [hc0, List.cons_append]
      exact dropWhile_cons_neg pyWs c0 _ hheadws
    have hcrev : ∃ d0 rs, (jsonTrim l).reverse = d0 :: rs ∧ pyWs d0 = false := by
      cases hrev : (jsonTrim l).reverse with
      | nil =>
        exact absurd (by simpa using congrArg List.reverse hrev) hcne
      | cons d0 rs =>
        refine ⟨d0, rs, rfl, ?_⟩
        apply hlast
        rw [← List.head?_reverse, hrev]
        rfl
    obtain ⟨d0, rs, hrev, hd0⟩ := hcrev
    have hB : pyStrip l = jsonTrim l := by
      unfold pyStrip
      rw [hA, List.reverse_append]
      rw [dropWhile_append_all pyWs _ _ (by
        intro x hx
        rw [List.mem_reverse] at hx
        exact hbws x hx)]
      rw [hrev, dropWhile_cons_neg pyWs d0 rs hd0, ← hrev]
      simp
    have hd0js : jsonWs d0 = false := by
      cases hjw : jsonWs d0 with
      | false => rfl
      | true => rw [jsonWs_le_pyWs d0 hjw] at hd0; cases hd0
    have hidem : jsonTrim (jsonTrim l) = jsonTrim l := by
      show (((jsonTrim l).dropWhile jsonWs).reverse.dropWhile jsonWs).reverse = jsonTrim l
      rw [hc0, dropWhile_cons_neg jsonWs c0 cs' hheadjs, ← hc0, hrev,
        dropWhile_cons_neg jsonWs d0 rs hd0js, ← hrev]
      simp
    rw [hB]
    simp only [pyJsonLoads]
    rw [hidem, hsucc, hv]

/-- C4, counterexample: the input `"\x7b\"a\": \",\x7d\"\x7d"` is already
well-formed JSON (an object mapping "a" to the two-character string ",\x7d"),
but the repair procedure's trailing-comma regex deletes the comma inside the
string literal, so repairing yields data different from parsing directly. -/
theorem json_repair_counterexample :
    pyJsonLoads (S ("\x7b\"a\": \",\x7d\"\x7d")) =
      some (.obj [(S ("a"), .str (S (",\x7d")))]) ∧
    pyJsonLoads (cleanJsonString (S ("\x7b\"a\": \",\x7d\"\x7d"))) =
      some (.obj [(S ("a"), .str (S ("\x7d")))]) ∧
    (Json.obj [(S ("a"), Json.str (S (",\x7d")))]) ≠
      (Json.obj [(S ("a"), Json.str (S ("\x7d")))]) :=
  ⟨by rfl, by rfl, fun h => absurd (congrArg jsonFirstStr h) (by decide)⟩

/-- C4, amended: for every input string that parses as JSON, contains no
"```json" fence marker, and is unchanged by the trailing-comma deletion
(in particular, any valid JSON text free of ",\x7d" / ",]" character pairs
inside its string literals), the repair procedure (fence extraction,
trailing-comma stripping, whitespace trimming, then parse) yields data
identical to parsing the original string directly. -/
theorem json_repair_idempotent (l : PyStr) (d : Json)
    (h : pyJsonLoads l = some d)
    (hfence : pyIn (S ("```json")) l = false)
    (hcomma : stripTrailingCommas l = l) :
    pyJsonLoads (cleanJsonString l) = some d := by
  unfold cleanJsonString
  rw [extractFence_noMarker l hfence, hcomma]
  exact pyJsonLoads_pyStrip l d h

/-- Witness for C4's amended theorem at the concrete well-formed input
`"  [\"ok\"] "`. -/
theorem json_repair_idempotent_witness :
    pyJsonLoads (S ("  [\"ok\"] ")) = some (.arr [.str (S ("ok"))]) ∧
    pyIn (S ("```json")) (S ("  [\"ok\"] ")) = false ∧
    stripTrailingCommas (S ("  [\"ok\"] ")) = S ("  [\"ok\"] ") ∧
    pyJsonLoads (cleanJsonString (S ("  [\"ok\"] "))) = some (.arr [.str (S ("ok"))]) :=
  ⟨by rfl, by decide, by rfl,
    json_repair_idempotent (S ("  [\"ok\"] ")) (Json.arr [.str (S ("ok"))])
      (by rfl) (by decide) (by rfl)⟩

/-- **C6.** With weather data present (a run that reaches the external
call), a missing response object or an empty response text fails with the
Generation error "Failed to generate itinerary content"; and every
successful run returns an itinerary with at least one daily plan — the
orchestrator never returns success for an empty itinerary. -/
theorem generation_empty_and_nonempty (w : WeatherResponse) (resp : Option PyStr)
    (hw : w.weather_forecast ≠ []) :
    ((resp = none ∨ resp = some []) →
      generateItinerary w resp = .error (S ("Failed to generate itinerary content"))) ∧
    (∀ r, generateItinerary w resp = .ok r → r.daily_itineraries ≠ []) := by
  have hwe : w.weather_forecast.isEmpty = false := by
    simpa [List.isEmpty_iff] using hw
  constructor
  · rintro (rfl | rfl)
    · simp [generateItinerary, hwe]
    · simp [generateItinerary, hwe]
  · intro r h
    simp only [generateItinerary, hwe, Bool.false_eq_true, if_false] at h
    split at h
    · cases h
    · rename_i txt
      split at h
      · cases h
      · split at h
        · cases h
        · rename_i r0 hp
          split at h
          · cases h
          · cases h
            rename_i hne
            simpa [List.isEmpty_iff] using hne

/-- Witness for C6 at concrete weather data and a missing response. -/
theorem generation_empty_and_nonempty_witness :
    witnessWeather.weather_forecast ≠ [] ∧
    generateItinerary witnessWeather none =
      .error (S ("Failed to generate itinerary content")) :=
  ⟨by simp [witnessWeather],
   (generation_empty_and_nonempty witnessWeather none (by simp [witnessWeather])).1
     (Or.inl rfl)⟩

theorem pyIn_append_left (n X Y : PyStr) (h : pyIn n X = true) : pyIn n (X ++ Y) = true := by
  rw [pyIn, decide_eq_true_iff] at h ⊢
  exact h.trans (List.prefix_append X Y).isInfix

theorem pyIn_append_right (n X Y : PyStr) (h : pyIn n Y = true) : pyIn n (X ++ Y) = true := by
  rw [pyIn, decide_eq_true_iff] at h ⊢
  exact h.trans (List.suffix_append X Y).isInfix

theorem pyIn_of_take (n l : PyStr) (k : Nat) (h : pyIn n (l.take k) = true) :
    pyIn n l = true := by
  rw [pyIn, decide_eq_true_iff] at h ⊢
  exact h.trans (List.take_prefix k l).isInfix

theorem pairwise_eq_all {α : Type} (l : List α) (h : l.Pairwise (fun a b => a = b)) :
    ∀ x ∈ l, ∀ y ∈ l, x = y := by
  induction l with
  | nil => simp
  | cons a t ih =>
    rcases List.pairwise_cons.mp h with ⟨ha, ht⟩
    intro x hx y hy
    rcases List.mem_cons.mp hx with hxa | hxt
    · rcases List.mem_cons.mp hy with hya | hyt
      · rw [hxa, hya]
      · rw [hxa]
        exact ha y hyt
    · rcases List.mem_cons.mp hy with hya | hyt
      · rw [hya]
        exact (ha x hxt).symm
      · exact ih ht x hxt y hyt

theorem unique_enum {α : Type} (src l1 l2 : List α)
    (hu : ∀ x ∈ src, ∀ y ∈ src, x = y)
    (h1n : l1.Nodup) (h2n : l2.Nodup)
    (s1 : ∀ x ∈ l1, x ∈ src) (s1r : ∀ x ∈ src, x ∈ l1)
    (s2 : ∀ x ∈ l2, x ∈ src) (s2r : ∀ x ∈ src, x ∈ l2) : l1 = l2 := by
  have shape : ∀ (l : List α), l.Nodup → (∀ x ∈ l, x ∈ src) → (∀ x ∈ src, x ∈ l) →
      (src = [] ∧ l = []) ∨ ∃ a, a ∈ src ∧ l = [a] := by
    intro l hn hs hsr
    cases l with
    | nil =>
      left
      refine ⟨?_, rfl⟩
      cases hsrc : src with
      | nil => rfl
      | cons b bs => exact absurd (hsr b (by rw [hsrc]; exact List.mem_cons_self b bs)) (by simp)
    | cons a t =>
      right
      refine ⟨a, hs a (List.mem_cons_self a t), ?_⟩
      cases t with
      | nil => rfl
      | cons b bs =>
        have hb : b ∈ src := hs b (by simp)
        have hab : a = b := hu a (hs a (by simp)) b hb
        rw [List.nodup_cons] at hn
        exact absurd (by rw [hab]; simp : a ∈ b :: bs) hn.1
  rcases shape l1 h1n s1 s1r with ⟨hsrc, rfl⟩ | ⟨a, ha, rfl⟩
  · rcases shape l2 h2n s2 s2r with ⟨_, rfl⟩ | ⟨b, hb, rfl⟩
    · rfl
    · rw [hsrc] at hb
      cases hb
  · rcases shape l2 h2n s2 s2r with ⟨hsrc, rfl⟩ | ⟨b, hb, rfl⟩
    · rw [hsrc] at ha
      cases ha
    · rw [hu a ha b hb]

/-- **C7** (amended). Prompt composition is deterministic up to the
iteration orders of the two Python sets it reads (`weather_conditions` and
`set(suggestions)`): whenever each of those sets has at most one element —
so that the admissible iteration orders are unique — any two admissible
evaluations produce the identical request string.  The counterexample
shows determinism fails as soon as the condition set has two elements. -/
theorem prompt_determinism (ti : TravelInput) (up : UserPreferences) (w : WeatherResponse)
    (co1 so1 co2 so2 : List PyStr)
    (h1 : admissibleCondOrder w co1) (h2 : admissibleCondOrder w co2)
    (hs1 : admissibleSuggOrder co1 so1) (hs2 : admissibleSuggOrder co2 so2)
    (hc : (condSet w).Pairwise (fun a b => a = b))
    (hs : (suggestionsList co1).Pairwise (fun a b => a = b)) :
    createItineraryPrompt ti up w co1 so1 = createItineraryPrompt ti up w co2 so2 := by
  obtain rfl : co1 = co2 :=
    unique_enum (condSet w) co1 co2 (pairwise_eq_all _ hc)
      h1.1 h2.1 h1.2.1 h1.2.2 h2.2.1 h2.2.2
  obtain rfl : so1 = so2 :=
    unique_enum (suggestionsList co1) so1 so2 (pairwise_eq_all _ hs)
      hs1.1 hs2.1 hs1.2.1 hs1.2.2 hs2.2.1 hs2.2.2
  rfl

/-- **C7**, counterexample: with two distinct weather conditions, the two
iteration orders of the `weather_conditions` set are both admissible and
yield different prompts (they differ in the header's condition join), so
the composer is not a deterministic function of its data alone. -/
theorem prompt_order_counterexample :
    admissibleCondOrder wC7 coA ∧ admissibleCondOrder wC7 coB ∧
    admissibleSuggOrder coA soC ∧ admissibleSuggOrder coB soC ∧
    createItineraryPrompt tiT upT wC7 coA soC ≠ createItineraryPrompt tiT upT wC7 coB soC :=
  ⟨by decide, by decide, by decide, by decide,
   fun h => absurd (congrArg (exTake 260) h) (by decide)⟩

/-- Witness for C7's amended theorem: a one-condition forecast with no
matching suggestions satisfies every hypothesis. -/
theorem prompt_determinism_witness :
    admissibleCondOrder wFog [S ("fog")] ∧
    admissibleSuggOrder [S ("fog")] [] ∧
    (condSet wFog).Pairwise (fun a b => a = b) ∧
    (suggestionsList [S ("fog")]).Pairwise (fun a b => a = b) ∧
    createItineraryPrompt tiT upT wFog [S ("fog")] [] =
      createItineraryPrompt tiT upT wFog [S ("fog")] [] :=
  ⟨by decide, by decide, by decide, by decide,
   prompt_determinism tiT upT wFog [S ("fog")] [] [S ("fog")] []
     (by decide) (by decide) (by decide) (by decide) (by decide) (by decide)⟩

/-- **C8.** For the trip 2025-02-01 to 2025-02-05 with total budget 2000
(5 days, so a 400.00 daily budget), the composed prompt contains the daily
budget line and all four allocation hints 160.00/120.00/80.00/40.00
(40%/30%/20%/10%).  The needles lie in the fixed preferences section,
before any set-iteration-dependent text, and are located within the first
600 characters of the prompt.  (IEEE doubles compute 2000.0/5 = 400.0 and
400*0.4 etc. whose `:.2f` renderings equal these exact-rational ones.) -/
theorem prompt_budget_allocation :
    createItineraryPrompt tiT upT witnessWeather [S ("cloudy")] soT = .ok promptC8val ∧
    pyIn (S ("- Daily Budget: $400.00 (Total: $2000.0)")) promptC8val = true ∧
    pyIn (S ("- Activities: 40% ($160.00)")) promptC8val = true ∧
    pyIn (S ("- Meals: 30% ($120.00)")) promptC8val = true ∧
    pyIn (S ("- Transport: 20% ($80.00)")) promptC8val = true ∧
    pyIn (S ("- Contingency: 10% ($40.00)")) promptC8val = true :=
  ⟨rfl,
   pyIn_of_take _ _ 600 (by with_unfolding_all decide),
   pyIn_of_take _ _ 600 (by with_unfolding_all decide),
   pyIn_of_take _ _ 600 (by with_unfolding_all decide),
   pyIn_of_take _ _ 600 (by with_unfolding_all decide),
   pyIn_of_take _ _ 600 (by with_unfolding_all decide)⟩
